import Mathlib

/-!
# AI-Slice backend services: a shallow embedding

This file embeds the business-logic services of the AI-Slice restaurant
platform (`backend/app/services/{order,payment,delivery,reputation}_service.py`
together with the entity models of `backend/app/models/` and the constants of
`backend/app/core/config.py`) and proves properties of the embedded code.

Modelling conventions:

* Monetary values (Python floats) are modelled as rationals `ℚ`; none of the
  verified properties depends on binary floating-point rounding.
* Timestamps (`datetime.utcnow()`) are modelled as natural numbers; operations
  that read the clock take an explicit `now` argument.
* The SQLAlchemy session is modelled as an explicit `DB` state threaded through
  every operation.  All service code paths that mutate state commit before
  returning, with one exception: the wallet-missing branch of `create_order`
  returns after the session has staged a VIP free-delivery-credit decrement;
  there the embedding returns the entry state, matching the rollback of the
  uncommitted session at the end of the request.
* Row objects held by the services are identity-mapped by the session, so a
  mutation through one reference is visible through every other reference to
  the same row.  The embedding re-reads a row from the `DB` state wherever the
  source re-uses a live object after an intervening mutation.
* A raised Python exception is modelled by an error result carrying no state:
  the request aborts before the session commits, so the entry state is what
  persists.  `PyResult.nameError` marks the `NameError`s of
  `reputation_service.py`, whose module scope (line 17) imports neither
  `UserType` — so the staff checks at lines 37 and 188 raise for every
  existing user row — nor `Wallet` (line 100).  `PyResult.attrError` marks an
  attribute access on a `None` relationship (`original_transaction.wallet`
  in `refund_order`).  `record_event` and `check_staff_performance` are
  mutually recursive in the source; the embedding keeps the call-depth
  parameter of the recursive translation scheme (`PyResult.fuelOut` marking
  exhaustion), but the `NameError` at line 188 (resp. line 37) fires before
  either recursive call is reached, so no reachable path consumes any depth.
* Python's `ReputationEventType[event_type.upper()]` enum-name lookup, with its
  `except KeyError` fallback to `ORDER_COMPLETED`, is modelled by a string
  match over the enum member names.
* Cosmetic identifier strings (order numbers, transaction reference numbers,
  generated from the clock and `uuid4`) and free-text fields interpolated from
  amounts are not modelled; branch-identifying message strings are kept.
* Row ids assigned by `flush()` are drawn from a single fresh-id counter
  `next_id`; this gives each table unique, fresh primary keys.
-/

namespace AISlice

/-- `models/user.py`: `UserType`. -/
inductive UserType where
  | visitor | customer | vip | chef | delivery | manager
  deriving DecidableEq, Repr

/-- `models/user.py`: `UserStatus`. -/
inductive UserStatus where
  | pending | active | suspended | blacklisted | deactivated
  deriving DecidableEq, Repr

/-- `models/order.py`: `OrderStatus`. -/
inductive OrderStatus where
  | cart | pending_payment | placed | preparing | ready_for_delivery
  | assigned_for_delivery | in_transit | delivered | completed
  | cancelled | rejected
  deriving DecidableEq, Repr

/-- `models/order.py`: `PaymentStatus`. -/
inductive PaymentStatus where
  | pending | paid | failed | refunded
  deriving DecidableEq, Repr

/-- `models/wallet.py`: `TransactionType`. -/
inductive TransactionType where
  | deposit | withdrawal | order_payment | refund | bonus
  deriving DecidableEq, Repr

/-- `models/wallet.py`: `TransactionStatus`. -/
inductive TransactionStatus where
  | pending | success | failed | cancelled
  deriving DecidableEq, Repr

/-- `models/reputation.py`: `ReputationEventType`. -/
inductive ReputationEventType where
  | complaint | compliment | warning | bonus | demotion | promotion
  | order_completed | order_rejected | insufficient_funds | rating_received
  deriving DecidableEq, Repr

/-- `models/reputation.py`: `ComplaintStatus`. -/
inductive ComplaintStatus where
  | pending | under_review | resolved | disputed | rejected
  deriving DecidableEq, Repr

/-- `models/delivery.py`: `DeliveryStatus`. -/
inductive DeliveryStatus where
  | pending_bidding | no_bidders | assigned | picked_up | in_transit
  | delivered | failed | cancelled
  deriving DecidableEq, Repr

/-- `models/delivery.py`: `BidStatus`. -/
inductive BidStatus where
  | pending | accepted | rejected | expired
  deriving DecidableEq, Repr

/-- `models/delivery.py`: `AssignmentType`. -/
inductive AssignmentType where
  | auto_assign | manager_override | manual_assign
  deriving DecidableEq, Repr

/-- `models/user.py`: `User` (the columns the services read or write). -/
structure User where
  id : Nat
  user_type : UserType
  status : UserStatus
  deriving DecidableEq, Repr

/-- `models/user.py`: `Customer`. -/
structure Customer where
  id : Nat
  user_id : Nat
  total_orders : Nat
  total_spent : ℚ
  is_vip : Bool
  vip_since : Option Nat
  vip_orders_count : Nat
  deriving DecidableEq, Repr

/-- `models/user.py`: `VIPCustomer` (keyed by its unique `customer_id`). -/
structure VIPCustomer where
  customer_id : Nat
  free_deliveries_earned : Nat
  free_deliveries_used : Nat
  deriving DecidableEq, Repr

/-- `models/user.py`: `Chef` (performance columns; chefs have a `salary`). -/
structure Chef where
  user_id : Nat
  average_rating : ℚ
  complaints_count : Nat
  compliments_count : Nat
  demotion_count : Nat
  salary : ℚ
  deriving DecidableEq, Repr

/-- `models/user.py`: `DeliveryPerson`.  Note: the source model has **no**
`salary` column, unlike `Chef`. -/
structure DeliveryPerson where
  id : Nat
  user_id : Nat
  total_deliveries : Nat
  average_rating : ℚ
  complaints_count : Nat
  compliments_count : Nat
  demotion_count : Nat
  is_available : Bool
  deriving DecidableEq, Repr

/-- `models/wallet.py`: `Wallet`. -/
structure Wallet where
  id : Nat
  user_id : Nat
  balance : ℚ
  total_deposited : ℚ
  total_spent : ℚ
  total_refunded : ℚ
  deriving DecidableEq, Repr

/-- `models/wallet.py`: `Transaction` (immutable ledger row). -/
structure Transaction where
  wallet_id : Nat
  order_id : Option Nat
  transaction_type : TransactionType
  status : TransactionStatus
  amount : ℚ
  balance_before : ℚ
  balance_after : ℚ
  deriving DecidableEq, Repr

/-- `models/order.py`: `Order`. -/
structure Order where
  id : Nat
  customer_id : Nat
  status : OrderStatus
  payment_status : PaymentStatus
  subtotal : ℚ
  discount_amount : ℚ
  delivery_fee : ℚ
  total_amount : ℚ
  is_vip_order : Bool
  is_free_delivery : Bool
  completed_at : Option Nat
  deriving DecidableEq, Repr

/-- `models/order.py`: `OrderItem`. -/
structure OrderItem where
  order_id : Nat
  dish_id : Nat
  quantity : Nat
  unit_price : ℚ
  total_price : ℚ
  deriving DecidableEq, Repr

/-- `models/menu.py`: `Dish` (the columns `create_order` reads or writes). -/
structure Dish where
  id : Nat
  price : ℚ
  is_available : Bool
  is_special : Bool
  times_ordered : Nat
  deriving DecidableEq, Repr

/-- `models/reputation.py`: `Reputation`. -/
structure Reputation where
  id : Nat
  user_id : Nat
  score : ℤ
  total_complaints : Nat
  total_compliments : Nat
  total_warnings : Nat
  deriving DecidableEq, Repr

/-- `models/reputation.py`: `ReputationEvent` (append-only log row). -/
structure ReputationEvent where
  reputation_id : Nat
  event_type : ReputationEventType
  score_change : ℤ
  description : String
  created_by : Option Nat
  deriving DecidableEq, Repr

/-- `models/reputation.py`: `Complaint` (the columns the modelled services
read: `process_payment` counts outstanding complaints by subject). -/
structure Complaint where
  id : Nat
  subject_id : Nat
  status : ComplaintStatus
  deriving DecidableEq, Repr

/-- `models/delivery.py`: `Delivery`. -/
structure Delivery where
  id : Nat
  order_id : Nat
  delivery_person_id : Option Nat
  status : DeliveryStatus
  assignment_type : Option AssignmentType
  winning_bid_amount : Option ℚ
  manager_justification : Option String
  bidding_ends_at : Nat
  actual_pickup_time : Option Nat
  actual_delivery_time : Option Nat
  deriving DecidableEq, Repr

/-- `models/delivery.py`: `DeliveryBid`. -/
structure DeliveryBid where
  id : Nat
  delivery_id : Nat
  delivery_person_id : Nat
  bid_amount : ℚ
  estimated_time : Nat
  status : BidStatus
  created_at : Nat
  deriving DecidableEq, Repr

/-- The persisted store: one list per table, in insertion order, plus a
fresh-id counter standing for the autoincrement primary-key allocator. -/
structure DB where
  users : List User
  customers : List Customer
  vip_customers : List VIPCustomer
  chefs : List Chef
  delivery_persons : List DeliveryPerson
  wallets : List Wallet
  transactions : List Transaction
  orders : List Order
  order_items : List OrderItem
  dishes : List Dish
  reputations : List Reputation
  reputation_events : List ReputationEvent
  complaints : List Complaint
  deliveries : List Delivery
  delivery_bids : List DeliveryBid
  next_id : Nat
  deriving DecidableEq, Repr

/-- `core/config.py`: the `Settings` fields the services consume. -/
structure Settings where
  VIP_DISCOUNT_PERCENTAGE : ℚ
  WARNING_THRESHOLD_DEREGISTER : Nat
  WARNING_THRESHOLD_VIP_DEMOTION : Nat
  BLACKLIST_REPUTATION_THRESHOLD : ℤ
  VIP_REPUTATION_THRESHOLD : ℤ

/-- The default settings instantiated at `core/config.py` import time. -/
def settings : Settings :=
  { VIP_DISCOUNT_PERCENTAGE := 5
    WARNING_THRESHOLD_DEREGISTER := 3
    WARNING_THRESHOLD_VIP_DEMOTION := 2
    BLACKLIST_REPUTATION_THRESHOLD := -50
    VIP_REPUTATION_THRESHOLD := 100 }

/-- ORM row mutation: apply `f` to every row matching `p` (rows are keyed by
unique ids, so at most one row matches in a well-formed store). -/
def listUpdate {α : Type} (p : α → Bool) (f : α → α) (l : List α) : List α :=
  l.map fun a => if p a then f a else a

/-- Outcome of running embedded service code: a normal return, fuel
exhaustion of the mutually recursive reputation functions (Python
`RecursionError`; no reachable path produces it, see `record_event`), an
unresolved name (Python `NameError`, from the module-scope imports missing in
`reputation_service.py`), or an attribute access on `None` (Python
`AttributeError`).  An error result carries no state: the exception
propagates before any `commit()`, so the entry state is what persists. -/
inductive PyResult (α : Type) where
  | ok (a : α)
  | fuelOut
  | nameError
  | attrError
  deriving DecidableEq, Repr

namespace PyResult

def bind {α β : Type} : PyResult α → (α → PyResult β) → PyResult β
  | ok a, f => f a
  | fuelOut, _ => fuelOut
  | nameError, _ => nameError
  | attrError, _ => attrError

instance : Monad PyResult where
  pure := ok
  bind := bind

end PyResult

/-- Update the matching `users` rows. -/
def DB.updUsers (db : DB) (p : User → Bool) (f : User → User) : DB :=
  { db with users := listUpdate p f db.users }

/-- Update the matching `customers` rows. -/
def DB.updCustomers (db : DB) (p : Customer → Bool) (f : Customer → Customer) : DB :=
  { db with customers := listUpdate p f db.customers }

/-- Update the matching `vip_customers` rows. -/
def DB.updVips (db : DB) (p : VIPCustomer → Bool) (f : VIPCustomer → VIPCustomer) : DB :=
  { db with vip_customers := listUpdate p f db.vip_customers }

/-- Update the matching `chefs` rows. -/
def DB.updChefs (db : DB) (p : Chef → Bool) (f : Chef → Chef) : DB :=
  { db with chefs := listUpdate p f db.chefs }

/-- Update the matching `delivery_persons` rows. -/
def DB.updDPs (db : DB) (p : DeliveryPerson → Bool) (f : DeliveryPerson → DeliveryPerson) : DB :=
  { db with delivery_persons := listUpdate p f db.delivery_persons }

/-- Update the matching `wallets` rows. -/
def DB.updWallets (db : DB) (p : Wallet → Bool) (f : Wallet → Wallet) : DB :=
  { db with wallets := listUpdate p f db.wallets }

/-- Update the matching `orders` rows. -/
def DB.updOrders (db : DB) (p : Order → Bool) (f : Order → Order) : DB :=
  { db with orders := listUpdate p f db.orders }

/-- Update the matching `dishes` rows. -/
def DB.updDishes (db : DB) (p : Dish → Bool) (f : Dish → Dish) : DB :=
  { db with dishes := listUpdate p f db.dishes }

/-- Update the matching `reputations` rows. -/
def DB.updReputations (db : DB) (p : Reputation → Bool) (f : Reputation → Reputation) : DB :=
  { db with reputations := listUpdate p f db.reputations }

/-- Update the matching `deliveries` rows. -/
def DB.updDeliveries (db : DB) (p : Delivery → Bool) (f : Delivery → Delivery) : DB :=
  { db with deliveries := listUpdate p f db.deliveries }

/-- Update the matching `delivery_bids` rows. -/
def DB.updBids (db : DB) (p : DeliveryBid → Bool) (f : DeliveryBid → DeliveryBid) : DB :=
  { db with delivery_bids := listUpdate p f db.delivery_bids }

/-- Append a ledger row (`session.add(transaction)`). -/
def DB.addTransaction (db : DB) (t : Transaction) : DB :=
  { db with transactions := db.transactions ++ [t] }

/-- Append a reputation log row (`session.add(event)`). -/
def DB.addEvent (db : DB) (e : ReputationEvent) : DB :=
  { db with reputation_events := db.reputation_events ++ [e] }

/-! ## Reputation service (`services/reputation_service.py`) -/

/-- `_calculate_score_change`: the fixed event-type → score-delta table. -/
def calculate_score_change : ReputationEventType → ℤ
  | .complaint => -10
  | .compliment => 10
  | .warning => -20
  | .bonus => 15
  | .demotion => -25
  | .promotion => 30
  | .order_completed => 2
  | .order_rejected => -5
  | .insufficient_funds => -3
  | .rating_received => 0

/-- Python's `str.upper()`. -/
def strUpper (s : String) : String := ⟨s.data.map Char.toUpper⟩

/-- Python's `ReputationEventType[name]` member-name lookup: `none` models the
`KeyError` raised for a string that is not a member name. -/
def eventTypeOfName : String → Option ReputationEventType
  | "COMPLAINT" => some .complaint
  | "COMPLIMENT" => some .compliment
  | "WARNING" => some .warning
  | "BONUS" => some .bonus
  | "DEMOTION" => some .demotion
  | "PROMOTION" => some .promotion
  | "ORDER_COMPLETED" => some .order_completed
  | "ORDER_REJECTED" => some .order_rejected
  | "INSUFFICIENT_FUNDS" => some .insufficient_funds
  | "RATING_RECEIVED" => some .rating_received
  | _ => none

/-- `_promote_to_vip`. -/
def promote_to_vip (now : Nat) (db : DB) (customer : Customer) : DB :=
  let db := db.updCustomers (fun c => c.id == customer.id)
    (fun c => { c with is_vip := true, vip_since := some now })
  db.updUsers (fun u => u.id == customer.user_id)
    (fun u => { u with user_type := .vip })

/-- `_demote_from_vip`: clears the VIP flag and counters, resets the warning
counter on the reputation row, and sets the role back to `customer`. -/
def demote_from_vip (db : DB) (customer : Customer) : DB :=
  let db := db.updCustomers (fun c => c.id == customer.id)
    (fun c => { c with is_vip := false, vip_since := none, vip_orders_count := 0 })
  let db := db.updReputations (fun r => r.user_id == customer.user_id)
    (fun r => { r with total_warnings := 0 })
  db.updUsers (fun u => u.id == customer.user_id)
    (fun u => { u with user_type := .customer })

/-- `check_warnings`: the warning count on the reputation row, 0 if absent. -/
def check_warnings (db : DB) (user_id : Nat) : Nat :=
  match db.reputations.find? (fun r => r.user_id == user_id) with
  | some r => r.total_warnings
  | none => 0

/-- The score write and per-type counter bump applied to the reputation row
by `record_event`. -/
def repApplyEvent (event_enum : ReputationEventType) (new_score : ℤ)
    (r : Reputation) : Reputation :=
  let r := { r with score := new_score }
  match event_enum with
  | .complaint => { r with total_complaints := r.total_complaints + 1 }
  | .compliment => { r with total_compliments := r.total_compliments + 1 }
  | .warning => { r with total_warnings := r.total_warnings + 1 }
  | _ => r

/-- `ReputationService.record_event`.  The module scope of
`reputation_service.py` (line 17) does not import `UserType`, so for every
subject whose user row exists the staff-type check at line 188 raises
`NameError` before the `self.db.commit()` at line 199: the staged writes of
lines 124-184 (including the VIP-promotion and blacklist branches) roll back
and nothing persists.  The source reads the user row at line 171, after
staging the bookkeeping; since that path commits nothing, the embedding hoists
the lookup to the front — the committed-state semantics are identical.  Only a
subject with **no** user row completes: lines 173-197 are skipped and the
reputation bookkeeping commits.  `fuel` is the call-depth budget of the
translation scheme for the source-level mutual recursion with
`check_staff_performance`; the `NameError` fires before the recursive call at
line 197, so no reachable path consumes any depth. -/
def record_event (_fuel : Nat) (_now : Nat) (db : DB) (user_id : Nat)
    (event_type : String) (created_by : Option Nat) : PyResult (DB × Bool) :=
  match db.users.find? (fun u => u.id == user_id) with
  | some _ => .nameError
  | none =>
    -- get or create the reputation row
    let (db, reputation) :=
      match db.reputations.find? (fun r => r.user_id == user_id) with
      | some r => (db, r)
      | none =>
        let r : Reputation := ⟨db.next_id, user_id, 0, 0, 0, 0⟩
        ({ db with reputations := db.reputations ++ [r], next_id := db.next_id + 1 }, r)
    -- `ReputationEventType[event_type.upper()]`, falling back to
    -- ORDER_COMPLETED on KeyError
    let event_enum := (eventTypeOfName (strUpper event_type)).getD .order_completed
    let score_change := calculate_score_change event_enum
    let event : ReputationEvent :=
      ⟨reputation.id, event_enum, score_change, event_type, created_by⟩
    let db := db.addEvent event
    let new_score := reputation.score + score_change
    -- save the new score and bump the per-type counters; the user-gated
    -- branches of lines 173-197 are all skipped (`user` is None)
    let db := db.updReputations (fun r => r.id == reputation.id)
      (repApplyEvent event_enum new_score)
    .ok (db, true)

/-- `ReputationService.check_staff_performance`.  `if not user` short-circuits
for a missing user row (line 37, return at 38); for an existing row the same
line evaluates `user.user_type not in [UserType.CHEF, UserType.DELIVERY]` and
raises `NameError` (`UserType` unimported), so the demotion/bonus body below —
including the `wallet.balance += 50.0` credit at line 102, which would itself
raise on the unimported `Wallet` at line 100 — is unreachable, and the
recursion back into `record_event` never starts. -/
def check_staff_performance (_fuel : Nat) (_now : Nat) (db : DB)
    (user_id : Nat) : PyResult DB :=
  match db.users.find? (fun u => u.id == user_id) with
  | none => .ok db
  | some _ => .nameError

/-- `ReputationService.apply_warning`. -/
def apply_warning (fuel : Nat) (now : Nat) (db : DB) (user_id : Nat)
    (_reason : String) : PyResult (DB × Bool) :=
  (record_event fuel now db user_id "WARNING" none).bind fun (db, _) =>
  let warning_count := check_warnings db user_id
  let db :=
    if warning_count ≥ settings.WARNING_THRESHOLD_DEREGISTER then
      db.updUsers (fun u => u.id == user_id)
        (fun u => { u with status := .deactivated })
    else db
  let db :=
    match db.customers.find? (fun c => c.user_id == user_id) with
    | some customer =>
      if customer.is_vip ∧ warning_count ≥ settings.WARNING_THRESHOLD_VIP_DEMOTION then
        demote_from_vip db customer
      else db
    | none => db
  .ok (db, true)

/-! ## Payment service (`services/payment_service.py`) -/

/-- `PaymentService.process_payment`. -/
def process_payment (db : DB) (now : Nat) (order_id : Nat) (customer_id : Nat)
    (amount : ℚ) : DB × Bool × String :=
  match db.customers.find? (fun c => c.id == customer_id) with
  | none => (db, false, "Customer not found")
  | some customer =>
  match db.wallets.find? (fun w => w.user_id == customer.user_id) with
  | none => (db, false, "Wallet not found")
  | some wallet =>
  if wallet.balance < amount then (db, false, "Insufficient wallet balance")
  else
    let balance_before := wallet.balance
    let db := db.updWallets (fun w => w.id == wallet.id)
      (fun w => { w with balance := w.balance - amount, total_spent := w.total_spent + amount })
    let balance_after := balance_before - amount
    -- customer stats and VIP upgrade check
    let db := db.updCustomers (fun c => c.id == customer_id)
      (fun c => { c with total_spent := c.total_spent + amount, total_orders := c.total_orders + 1 })
    let db :=
      if customer.is_vip then db
      else
        -- the live customer object now carries the incremented totals
        match db.customers.find? (fun c => c.id == customer_id) with
        | none => db
        | some c2 =>
          if c2.total_spent > 100 ∨ c2.total_orders ≥ 3 then
            let outstanding := (db.complaints.filter (fun cp =>
              cp.subject_id == customer.user_id &&
              (cp.status == ComplaintStatus.pending ||
               cp.status == ComplaintStatus.under_review))).length
            if outstanding == 0 then
              db.updCustomers (fun c => c.id == customer_id)
                (fun c => { c with is_vip := true, vip_since := some now, vip_orders_count := 0 })
            else db
          else db
    let txn : Transaction :=
      ⟨wallet.id, some order_id, .order_payment, .success, amount,
        balance_before, balance_after⟩
    let db := db.addTransaction txn
    let db :=
      match db.orders.find? (fun o => o.id == order_id) with
      | some _ => db.updOrders (fun o => o.id == order_id)
          (fun o => { o with payment_status := .paid })
      | none => db
    (db, true, "Payment completed")

/-- `PaymentService.deposit_money`. -/
def deposit_money (db : DB) (user_id : Nat) (amount : ℚ) : DB × Bool × String :=
  if amount ≤ 0 then (db, false, "Deposit amount must be positive")
  else
    -- get or create the wallet
    let (db, wallet) :=
      match db.wallets.find? (fun w => w.user_id == user_id) with
      | some w => (db, w)
      | none =>
        let w : Wallet := ⟨db.next_id, user_id, 0, 0, 0, 0⟩
        ({ db with wallets := db.wallets ++ [w], next_id := db.next_id + 1 }, w)
    let balance_before := wallet.balance
    let db := db.updWallets (fun w => w.id == wallet.id)
      (fun w => { w with balance := w.balance + amount, total_deposited := w.total_deposited + amount })
    let balance_after := balance_before + amount
    let txn : Transaction :=
      ⟨wallet.id, none, .deposit, .success, amount, balance_before, balance_after⟩
    (db.addTransaction txn, true, "Successfully deposited")

/-- `PaymentService.refund_order`.  `attrError` models `wallet.balance` on a
broken foreign key (`original_transaction.wallet` resolving to `None`). -/
def refund_order (db : DB) (order_id : Nat) : PyResult (DB × Bool × String) :=
  match db.transactions.find? (fun t =>
    t.order_id == some order_id && t.transaction_type == TransactionType.order_payment) with
  | none => .ok (db, false, "Original payment transaction not found")
  | some original =>
    match db.wallets.find? (fun w => w.id == original.wallet_id) with
    | none => .attrError
    | some wallet =>
      let refund_amount := original.amount
      let balance_before := wallet.balance
      let db := db.updWallets (fun w => w.id == wallet.id)
        (fun w => { w with balance := w.balance + refund_amount, total_refunded := w.total_refunded + refund_amount })
      let balance_after := balance_before + refund_amount
      let txn : Transaction :=
        ⟨wallet.id, some order_id, .refund, .success, refund_amount,
          balance_before, balance_after⟩
      let db := db.addTransaction txn
      let db :=
        match db.orders.find? (fun o => o.id == order_id) with
        | some _ => db.updOrders (fun o => o.id == order_id)
            (fun o => { o with payment_status := .refunded })
        | none => db
      .ok (db, true, "Refunded to wallet")

/-! ## Order service (`services/order_service.py`) -/

/-- The cart-scanning loop of `create_order`: dishes that are missing or
unavailable are dropped; a VIP-only dish requested by a non-VIP customer
rejects the whole order. -/
def scanCart (db : DB) (customer : Customer) :
    List (Nat × Nat) → Except String (List (Dish × Nat))
  | [] => .ok []
  | (dish_id, quantity) :: rest =>
    match db.dishes.find? (fun d => d.id == dish_id) with
    | none => scanCart db customer rest
    | some dish =>
      if !dish.is_available then scanCart db customer rest
      else if dish.is_special && !customer.is_vip then
        .error "VIP-only item. Become a VIP to order this dish!"
      else (scanCart db customer rest).map (fun l => (dish, quantity) :: l)

/-- `OrderService.update_order_status`. -/
def update_order_status (db : DB) (now : Nat) (order_id : Nat)
    (new_status : OrderStatus) : DB × Bool :=
  match db.orders.find? (fun o => o.id == order_id) with
  | none => (db, false)
  | some _ =>
    let db := db.updOrders (fun o => o.id == order_id)
      (fun o =>
        let o := { o with status := new_status }
        if new_status == OrderStatus.completed then { o with completed_at := some now } else o)
    (db, true)

/-- The pricing block of `create_order` (source lines 80-99): VIP discount and
free-delivery credit; the credit is consumed here, before the funds check.
Returns the (possibly mutated) session state together with
`(discount_amount, delivery_fee, is_free_delivery, final_amount)`. -/
def computePricing (db : DB) (customer : Customer) (total_amount : ℚ) :
    DB × ℚ × ℚ × Bool × ℚ :=
  if customer.is_vip then
    let discount := total_amount * (settings.VIP_DISCOUNT_PERCENTAGE / 100)
    match db.vip_customers.find? (fun v => v.customer_id == customer.id) with
    | some vip_record =>
      if vip_record.free_deliveries_earned > vip_record.free_deliveries_used then
        let db := db.updVips (fun v => v.customer_id == customer.id)
          (fun v => { v with free_deliveries_used := v.free_deliveries_used + 1 })
        (db, discount, 0, true, total_amount - discount + 0)
      else (db, discount, 5, false, total_amount - discount + 5)
    | none => (db, discount, 5, false, total_amount - discount + 5)
  else (db, 0, 5, false, total_amount + 5)

/-- `OrderService.create_order`. -/
def create_order (fuel : Nat) (now : Nat) (db : DB) (customer_id : Nat)
    (cart_items : List (Nat × Nat)) : PyResult (DB × Bool × String × Option Nat) :=
  if cart_items.isEmpty then .ok (db, false, "Cart is empty. Cannot create order", none)
  else
  match db.customers.find? (fun c => c.id == customer_id) with
  | none => .ok (db, false, "Customer not found", none)
  | some customer =>
  match scanCart db customer cart_items with
  | .error msg => .ok (db, false, msg, none)
  | .ok available_items =>
  if available_items.length == 0 then
    .ok (db, false, "All items unavailable. Order cancelled", none)
  else
  let total_amount := (available_items.map (fun it => it.1.price * (it.2 : ℚ))).sum
  let is_vip := customer.is_vip
  match computePricing db customer total_amount with
  | (db0, discount_amount, delivery_fee, is_free_delivery, final_amount) =>
  match db0.wallets.find? (fun w => w.user_id == customer.user_id) with
  | none =>
    -- no commit has happened: the pending credit decrement is rolled back
    .ok (db, false, "Wallet not found", none)
  | some wallet =>
  if wallet.balance < final_amount then
    (record_event fuel now db0 customer.user_id
        "INSUFFICIENT_FUNDS_ORDER_REJECTED" none).bind fun (db1, _) =>
      .ok (db1, false, "Insufficient funds. Order rejected", none)
  else
    let oid := db0.next_id
    let order : Order :=
      ⟨oid, customer_id, .pending_payment, .pending, total_amount, discount_amount,
        delivery_fee, final_amount, is_vip, is_free_delivery, none⟩
    let db1 := { db0 with orders := db0.orders ++ [order], next_id := db0.next_id + 1 }
    let new_items := available_items.map (fun it =>
      (⟨oid, it.1.id, it.2, it.1.price, it.1.price * (it.2 : ℚ)⟩ : OrderItem))
    let db2 := { db1 with order_items := db1.order_items ++ new_items }
    match process_payment db2 now oid customer_id final_amount with
    | (db3, true, _) =>
      let db4 := db3.updOrders (fun o => o.id == oid)
        (fun o => { o with status := .placed, payment_status := .paid })
      -- customer statistics (updated here a second time, after
      -- `process_payment` already updated them)
      let db5 := db4.updCustomers (fun c => c.id == customer_id)
        (fun c => { c with total_orders := c.total_orders + 1, total_spent := c.total_spent + final_amount })
      -- VIP free-delivery progress, on the live customer object
      let db6 :=
        match db5.customers.find? (fun c => c.id == customer_id) with
        | none => db5
        | some c2 =>
          if c2.is_vip then
            let dbv := db5.updCustomers (fun c => c.id == customer_id)
              (fun c => { c with vip_orders_count := c.vip_orders_count + 1 })
            if (c2.vip_orders_count + 1) % 3 == 0 then
              match dbv.vip_customers.find? (fun v => v.customer_id == customer.id) with
              | some _ => dbv.updVips (fun v => v.customer_id == customer.id)
                  (fun v => { v with free_deliveries_earned := v.free_deliveries_earned + 1 })
              | none =>
                { dbv with vip_customers := dbv.vip_customers ++
                  [(⟨customer.id, 1, 0⟩ : VIPCustomer)] }
            else dbv
          else db5
      -- dish popularity
      let db7 := available_items.foldl (fun acc it =>
        acc.updDishes (fun d => d.id == it.1.id)
          (fun d => { d with times_ordered := d.times_ordered + it.2 })) db6
      .ok (db7, true, "Order created successfully", some oid)
    | (db3, false, pmsg) =>
      let db4 := db3.updOrders (fun o => o.id == oid)
        (fun o => { o with status := .rejected, payment_status := .failed })
      .ok (db4, false, "Payment failed. " ++ pmsg, none)

/-! ## Delivery service (`services/delivery_service.py`) -/

/-- The Python sort key `(bid_amount, created_at)` compared lexicographically
(this is the `le` handed to the stable sort). -/
def bidLe (b1 b2 : DeliveryBid) : Bool :=
  decide (b1.bid_amount < b2.bid_amount ∨
    (b1.bid_amount = b2.bid_amount ∧ b1.created_at ≤ b2.created_at))

/-- The pending-bid query of `assign_agent` (source lines 49-53). -/
def pendingBids (db : DB) (delivery : Delivery) : List DeliveryBid :=
  db.delivery_bids.filter (fun b =>
    b.delivery_id == delivery.id && b.status == BidStatus.pending)

/-- `DeliveryService.assign_agent`. -/
def assign_agent (db : DB) (order_id : Nat)
    (manager_override_delivery_person_id : Option Nat)
    (justification : Option String) : DB × Bool × String × Option Nat :=
  match db.orders.find? (fun o => o.id == order_id) with
  | none => (db, false, "Order not found", none)
  | some _ =>
  match db.deliveries.find? (fun d => d.order_id == order_id) with
  | none => (db, false, "Delivery record not found", none)
  | some delivery =>
  let bids := pendingBids db delivery
  if bids.length == 0 then
    let db := db.updDeliveries (fun d => d.id == delivery.id)
      (fun d => { d with status := .no_bidders })
    let db := db.updOrders (fun o => o.id == order_id)
      (fun o => { o with status := .ready_for_delivery })
    (db, false, "No bids. Manager must assign manually", none)
  else
  match bids.mergeSort bidLe with
  | [] => (db, false, "No bids. Manager must assign manually", none) -- unreachable
  | lowest_bid :: _ =>
  -- accept one bid, reject the rest, then update delivery, order and courier
  let finish := fun (db : DB) (chosen : Nat) (atype : AssignmentType) (wamount : ℚ) =>
    let db := db.updDeliveries (fun d => d.id == delivery.id)
      (fun d => { d with delivery_person_id := some chosen, assignment_type := some atype, winning_bid_amount := some wamount, status := DeliveryStatus.assigned })
    let db := db.updOrders (fun o => o.id == order_id)
      (fun o => { o with status := .assigned_for_delivery })
    let db :=
      match db.delivery_persons.find? (fun p => p.id == chosen) with
      | some _ => db.updDPs (fun p => p.id == chosen)
          (fun p => { p with is_available := false })
      | none => db
    (db, true, "Delivery assigned successfully", some chosen)
  match manager_override_delivery_person_id with
  | some mid =>
    let override_bid := bids.find? (fun b => b.delivery_person_id == mid)
    -- `if not justification` is also true for an empty string
    let justification_falsy :=
      match justification with
      | none => true
      | some s => s.isEmpty
    if (match override_bid with
        | some ob => decide (ob.bid_amount > lowest_bid.bid_amount)
        | none => false) && justification_falsy then
      (db, false, "Choosing a higher bid requires a justification memo", none)
    else
      match override_bid with
      | none => (db, false, "Manager override delivery person has no bid", none)
      | some ob =>
        let db := db.updBids (fun b => b.id == ob.id)
          (fun b => { b with status := .accepted })
        let db := db.updBids (fun b =>
            bids.any (fun b2 => b2.id == b.id) && b.id != ob.id)
          (fun b => { b with status := .rejected })
        let db := db.updDeliveries (fun d => d.id == delivery.id)
          (fun d => { d with manager_justification := justification })
        finish db mid .manager_override ob.bid_amount
  | none =>
    let db := db.updBids (fun b => b.id == lowest_bid.id)
      (fun b => { b with status := .accepted })
    let db := db.updBids (fun b =>
        bids.any (fun b2 => b2.id == b.id) && b.id != lowest_bid.id)
      (fun b => { b with status := .rejected })
    finish db lowest_bid.delivery_person_id .auto_assign lowest_bid.bid_amount

/-- `DeliveryService.create_delivery_listing` (addresses and distance are
free-text/cosmetic and not modelled). -/
def create_delivery_listing (db : DB) (now : Nat) (order_id : Nat)
    (bidding_duration_minutes : Nat) : DB × Bool × Option Nat :=
  match db.orders.find? (fun o => o.id == order_id) with
  | none => (db, false, none)
  | some _ =>
    match db.deliveries.find? (fun d => d.order_id == order_id) with
    | some existing => (db, false, some existing.id)
    | none =>
      let d : Delivery :=
        ⟨db.next_id, order_id, none, .pending_bidding, none, none, none,
          now + bidding_duration_minutes, none, none⟩
      ({ db with deliveries := db.deliveries ++ [d], next_id := db.next_id + 1 },
        true, some d.id)

/-- `DeliveryService.update_delivery_status`. -/
def update_delivery_status (db : DB) (now : Nat) (delivery_id : Nat)
    (new_status : DeliveryStatus) : DB × Bool × String :=
  match db.deliveries.find? (fun d => d.id == delivery_id) with
  | none => (db, false, "Delivery not found")
  | some delivery =>
    let db := db.updDeliveries (fun d => d.id == delivery_id)
      (fun d => { d with status := new_status })
    let db :=
      if new_status == DeliveryStatus.picked_up then
        db.updDeliveries (fun d => d.id == delivery_id)
          (fun d => { d with actual_pickup_time := some now })
      else if new_status == DeliveryStatus.delivered then
        let db := db.updDeliveries (fun d => d.id == delivery_id)
          (fun d => { d with actual_delivery_time := some now })
        match delivery.delivery_person_id with
        | some pid =>
          db.updDPs (fun p => p.id == pid)
            (fun p => { p with is_available := true, total_deliveries := p.total_deliveries + 1 })
        | none => db
      else db
    -- mirror the related order's status
    let db :=
      match db.orders.find? (fun o => o.id == delivery.order_id) with
      | none => db
      | some _ =>
        if new_status == DeliveryStatus.picked_up then
          db.updOrders (fun o => o.id == delivery.order_id)
            (fun o => { o with status := .in_transit })
        else if new_status == DeliveryStatus.delivered then
          db.updOrders (fun o => o.id == delivery.order_id)
            (fun o => { o with status := OrderStatus.delivered, completed_at := some now })
        else db
    (db, true, "Delivery status updated")

/-! ## Chef API transition guard (`api/chef.py`, `update_order_status` route) -/

/-- The chef route's whitelist validation around the core
`update_order_status`: only `placed → preparing` and
`preparing → ready_for_delivery` pass; marking ready also creates the
delivery listing. -/
def chef_update_order_status (db : DB) (now : Nat) (order_id : Nat)
    (new_status : OrderStatus) : DB × Bool × String :=
  match db.orders.find? (fun o => o.id == order_id) with
  | none => (db, false, "Order not found")
  | some order =>
    if new_status == .preparing then
      if order.status != .placed then
        (db, false, "Can only move to PREPARING from PLACED")
      else
        let (db, ok) := update_order_status db now order_id new_status
        (db, ok, "Order status updated")
    else if new_status == .ready_for_delivery then
      if order.status != .preparing then
        (db, false, "Can only move to READY_FOR_DELIVERY from PREPARING")
      else
        let (db, ok) := update_order_status db now order_id new_status
        let (db, _, _) := create_delivery_listing db now order_id 30
        (db, ok, "Order status updated")
    else (db, false, "Invalid status transition for chef")



/-! ## Result projections and ledger invariant -/

/-- The payload of a normal return. -/
def okOf {α : Type} : PyResult α → Option α
  | .ok a => some a
  | _ => none

/-- Sum of `balance_after - balance_before` over a wallet's ledger rows. -/
def walletDeltasSum (db : DB) (wid : Nat) : ℚ :=
  ((db.transactions.filter (fun t => t.wallet_id == wid)).map
    (fun t => t.balance_after - t.balance_before)).sum

/-- The auditability invariant of §8: for every wallet, the sum of all
Transaction deltas equals `balance - initial_balance(0)`. -/
def ledgerInvariant (db : DB) : Prop :=
  ∀ w ∈ db.wallets, walletDeltasSum db w.id = w.balance

/-- Key hygiene for the wallet table: distinct primary keys, and the
fresh-id counter dominates every existing wallet and ledger key. -/
def WalletKeysOk (db : DB) : Prop :=
  (db.wallets.map Wallet.id).Nodup ∧
  (∀ w ∈ db.wallets, w.id < db.next_id) ∧
  (∀ t ∈ db.transactions, t.wallet_id < db.next_id)

/-! ## Concrete stores used to instantiate the claims -/

/-- An empty store (fresh ids start at 100). -/
def emptyDB : DB := ⟨[], [], [], [], [], [], [], [], [], [], [], [], [], [], [], 100⟩

/-- A plain customer (user 11) with wallet balance 1 facing a 10-priced dish. -/
def poorDB : DB :=
  { emptyDB with
      users := [⟨11, .customer, .active⟩]
      customers := [⟨1, 11, 0, 0, false, none, 0⟩]
      wallets := [⟨21, 11, 1, 0, 0, 0⟩]
      dishes := [⟨1, 10, true, false, 0⟩]
      reputations := [⟨31, 11, 0, 0, 0, 0⟩] }

/-- A VIP customer (user 12) holding one unused free-delivery credit and a
wallet balance of 1. -/
def vipDB : DB :=
  { emptyDB with
      users := [⟨12, .vip, .active⟩]
      customers := [⟨1, 12, 0, 0, true, some 0, 0⟩]
      vip_customers := [⟨1, 1, 0⟩]
      wallets := [⟨21, 12, 1, 0, 0, 0⟩]
      dishes := [⟨1, 10, true, false, 0⟩]
      reputations := [⟨31, 12, 0, 0, 0, 0⟩] }

/-- A plain customer (user 11) with ample funds. -/
def richDB : DB :=
  { emptyDB with
      users := [⟨11, .customer, .active⟩]
      customers := [⟨1, 11, 0, 0, false, none, 0⟩]
      wallets := [⟨21, 11, 100, 100, 0, 0⟩]
      dishes := [⟨1, 10, true, false, 0⟩]
      reputations := [⟨31, 11, 0, 0, 0, 0⟩] }

/-- A delivery listing with three pending bids `5.00@1`, `4.50@3`, `4.50@2`
from three available couriers. -/
def bidDB : DB :=
  { emptyDB with
      users := [⟨131, .delivery, .active⟩, ⟨132, .delivery, .active⟩,
        ⟨133, .delivery, .active⟩]
      delivery_persons := [⟨31, 131, 0, 0, 0, 0, 0, true⟩,
        ⟨32, 132, 0, 0, 0, 0, 0, true⟩, ⟨33, 133, 0, 0, 0, 0, 0, true⟩]
      orders := [⟨1, 1, .ready_for_delivery, .paid, 10, 0, 5, 15, false, false, none⟩]
      deliveries := [⟨1, 1, none, .pending_bidding, none, none, none, 100, none, none⟩]
      delivery_bids := [⟨41, 1, 31, 5, 30, .pending, 1⟩,
        ⟨42, 1, 32, 9/2, 25, .pending, 3⟩, ⟨43, 1, 33, 9/2, 20, .pending, 2⟩] }

/-- A delivered order (terminal state). -/
def deliveredDB : DB :=
  { emptyDB with
      orders := [⟨1, 1, .delivered, .paid, 10, 0, 5, 15, false, false, some 50⟩] }

/-- A delivery that was already assigned: every bid is decided. -/
def assignedDB : DB :=
  { emptyDB with
      orders := [⟨1, 1, .assigned_for_delivery, .paid, 10, 0, 5, 15, false, false, none⟩]
      deliveries := [⟨1, 1, some 31, .assigned, some .auto_assign, some 5, none, 100,
        none, none⟩]
      delivery_bids := [⟨41, 1, 31, 5, 30, .accepted, 1⟩,
        ⟨42, 1, 32, 6, 25, .rejected, 2⟩] }

/-- A paid order (id 7) with its `order_payment` ledger row of amount 12. -/
def refundDB : DB :=
  { emptyDB with
      users := [⟨11, .customer, .active⟩]
      wallets := [⟨21, 11, 20, 32, 12, 0⟩]
      transactions := [⟨21, some 7, .order_payment, .success, 12, 32, 20⟩] }

/-- A chef (user 13) whose `average_rating` is 1.0: the demotion trigger is
armed and nothing on the recursive path disarms it. -/
def chefDemoteDB : DB :=
  { emptyDB with
      users := [⟨13, .chef, .active⟩]
      chefs := [⟨13, 1, 0, 0, 0, 100⟩]
      reputations := [⟨31, 13, 0, 0, 0, 0⟩] }

/-- A plain customer (user 11) already carrying two warnings. -/
def nonVipWarnDB : DB :=
  { emptyDB with
      users := [⟨11, .customer, .active⟩]
      customers := [⟨1, 11, 0, 0, false, none, 0⟩]
      reputations := [⟨31, 11, 0, 0, 0, 2⟩] }

/-- A VIP customer (user 12) already carrying one warning. -/
def vipWarnDB : DB :=
  { emptyDB with
      users := [⟨12, .vip, .active⟩]
      customers := [⟨1, 12, 0, 0, true, some 0, 0⟩]
      vip_customers := [⟨1, 0, 0⟩]
      reputations := [⟨31, 12, 0, 0, 0, 1⟩] }

/-- A customer (user 11) with a consistent ledger: wallet 21 holds 20,
backed by one deposit of 32 and one order payment of 12 (order 7). -/
def ledgerDB : DB :=
  { emptyDB with
      users := [⟨11, .customer, .active⟩]
      customers := [⟨1, 11, 0, 0, false, none, 0⟩]
      wallets := [⟨21, 11, 20, 32, 12, 0⟩]
      transactions := [⟨21, none, .deposit, .success, 32, 0, 32⟩,
        ⟨21, some 7, .order_payment, .success, 12, 32, 20⟩] }

/-! ## Projection lemmas for the row-update helpers -/

theorem updUsers_users (db : DB) (p : User → Bool) (f : User → User) :
    (db.updUsers p f).users = listUpdate p f db.users := rfl

theorem updUsers_customers (db : DB) (p : User → Bool) (f : User → User) :
    (db.updUsers p f).customers = db.customers := rfl

theorem updUsers_vip_customers (db : DB) (p : User → Bool) (f : User → User) :
    (db.updUsers p f).vip_customers = db.vip_customers := rfl

theorem updUsers_chefs (db : DB) (p : User → Bool) (f : User → User) :
    (db.updUsers p f).chefs = db.chefs := rfl

theorem updUsers_delivery_persons (db : DB) (p : User → Bool) (f : User → User) :
    (db.updUsers p f).delivery_persons = db.delivery_persons := rfl

theorem updUsers_wallets (db : DB) (p : User → Bool) (f : User → User) :
    (db.updUsers p f).wallets = db.wallets := rfl

theorem updUsers_transactions (db : DB) (p : User → Bool) (f : User → User) :
    (db.updUsers p f).transactions = db.transactions := rfl

theorem updUsers_orders (db : DB) (p : User → Bool) (f : User → User) :
    (db.updUsers p f).orders = db.orders := rfl

theorem updUsers_order_items (db : DB) (p : User → Bool) (f : User → User) :
    (db.updUsers p f).order_items = db.order_items := rfl

theorem updUsers_dishes (db : DB) (p : User → Bool) (f : User → User) :
    (db.updUsers p f).dishes = db.dishes := rfl

theorem updUsers_reputations (db : DB) (p : User → Bool) (f : User → User) :
    (db.updUsers p f).reputations = db.reputations := rfl

theorem updUsers_reputation_events (db : DB) (p : User → Bool) (f : User → User) :
    (db.updUsers p f).reputation_events = db.reputation_events := rfl

theorem updUsers_complaints (db : DB) (p : User → Bool) (f : User → User) :
    (db.updUsers p f).complaints = db.complaints := rfl

theorem updUsers_deliveries (db : DB) (p : User → Bool) (f : User → User) :
    (db.updUsers p f).deliveries = db.deliveries := rfl

theorem updUsers_delivery_bids (db : DB) (p : User → Bool) (f : User → User) :
    (db.updUsers p f).delivery_bids = db.delivery_bids := rfl

theorem updUsers_next_id (db : DB) (p : User → Bool) (f : User → User) :
    (db.updUsers p f).next_id = db.next_id := rfl

theorem updCustomers_users (db : DB) (p : Customer → Bool) (f : Customer → Customer) :
    (db.updCustomers p f).users = db.users := rfl

theorem updCustomers_customers (db : DB) (p : Customer → Bool) (f : Customer → Customer) :
    (db.updCustomers p f).customers = listUpdate p f db.customers := rfl

theorem updCustomers_vip_customers (db : DB) (p : Customer → Bool) (f : Customer → Customer) :
    (db.updCustomers p f).vip_customers = db.vip_customers := rfl

theorem updCustomers_chefs (db : DB) (p : Customer → Bool) (f : Customer → Customer) :
    (db.updCustomers p f).chefs = db.chefs := rfl

theorem updCustomers_delivery_persons (db : DB) (p : Customer → Bool) (f : Customer → Customer) :
    (db.updCustomers p f).delivery_persons = db.delivery_persons := rfl

theorem updCustomers_wallets (db : DB) (p : Customer → Bool) (f : Customer → Customer) :
    (db.updCustomers p f).wallets = db.wallets := rfl

theorem updCustomers_transactions (db : DB) (p : Customer → Bool) (f : Customer → Customer) :
    (db.updCustomers p f).transactions = db.transactions := rfl

theorem updCustomers_orders (db : DB) (p : Customer → Bool) (f : Customer → Customer) :
    (db.updCustomers p f).orders = db.orders := rfl

theorem updCustomers_order_items (db : DB) (p : Customer → Bool) (f : Customer → Customer) :
    (db.updCustomers p f).order_items = db.order_items := rfl

theorem updCustomers_dishes (db : DB) (p : Customer → Bool) (f : Customer → Customer) :
    (db.updCustomers p f).dishes = db.dishes := rfl

theorem updCustomers_reputations (db : DB) (p : Customer → Bool) (f : Customer → Customer) :
    (db.updCustomers p f).reputations = db.reputations := rfl

theorem updCustomers_reputation_events (db : DB) (p : Customer → Bool) (f : Customer → Customer) :
    (db.updCustomers p f).reputation_events = db.reputation_events := rfl

theorem updCustomers_complaints (db : DB) (p : Customer → Bool) (f : Customer → Customer) :
    (db.updCustomers p f).complaints = db.complaints := rfl

theorem updCustomers_deliveries (db : DB) (p : Customer → Bool) (f : Customer → Customer) :
    (db.updCustomers p f).deliveries = db.deliveries := rfl

theorem updCustomers_delivery_bids (db : DB) (p : Customer → Bool) (f : Customer → Customer) :
    (db.updCustomers p f).delivery_bids = db.delivery_bids := rfl

theorem updCustomers_next_id (db : DB) (p : Customer → Bool) (f : Customer → Customer) :
    (db.updCustomers p f).next_id = db.next_id := rfl

theorem updVips_users (db : DB) (p : VIPCustomer → Bool) (f : VIPCustomer → VIPCustomer) :
    (db.updVips p f).users = db.users := rfl

theorem updVips_customers (db : DB) (p : VIPCustomer → Bool) (f : VIPCustomer → VIPCustomer) :
    (db.updVips p f).customers = db.customers := rfl

theorem updVips_vip_customers (db : DB) (p : VIPCustomer → Bool) (f : VIPCustomer → VIPCustomer) :
    (db.updVips p f).vip_customers = listUpdate p f db.vip_customers := rfl

theorem updVips_chefs (db : DB) (p : VIPCustomer → Bool) (f : VIPCustomer → VIPCustomer) :
    (db.updVips p f).chefs = db.chefs := rfl

theorem updVips_delivery_persons (db : DB) (p : VIPCustomer → Bool) (f : VIPCustomer → VIPCustomer) :
    (db.updVips p f).delivery_persons = db.delivery_persons := rfl

theorem updVips_wallets (db : DB) (p : VIPCustomer → Bool) (f : VIPCustomer → VIPCustomer) :
    (db.updVips p f).wallets = db.wallets := rfl

theorem updVips_transactions (db : DB) (p : VIPCustomer → Bool) (f : VIPCustomer → VIPCustomer) :
    (db.updVips p f).transactions = db.transactions := rfl

theorem updVips_orders (db : DB) (p : VIPCustomer → Bool) (f : VIPCustomer → VIPCustomer) :
    (db.updVips p f).orders = db.orders := rfl

theorem updVips_order_items (db : DB) (p : VIPCustomer → Bool) (f : VIPCustomer → VIPCustomer) :
    (db.updVips p f).order_items = db.order_items := rfl

theorem updVips_dishes (db : DB) (p : VIPCustomer → Bool) (f : VIPCustomer → VIPCustomer) :
    (db.updVips p f).dishes = db.dishes := rfl

theorem updVips_reputations (db : DB) (p : VIPCustomer → Bool) (f : VIPCustomer → VIPCustomer) :
    (db.updVips p f).reputations = db.reputations := rfl

theorem updVips_reputation_events (db : DB) (p : VIPCustomer → Bool) (f : VIPCustomer → VIPCustomer) :
    (db.updVips p f).reputation_events = db.reputation_events := rfl

theorem updVips_complaints (db : DB) (p : VIPCustomer → Bool) (f : VIPCustomer → VIPCustomer) :
    (db.updVips p f).complaints = db.complaints := rfl

theorem updVips_deliveries (db : DB) (p : VIPCustomer → Bool) (f : VIPCustomer → VIPCustomer) :
    (db.updVips p f).deliveries = db.deliveries := rfl

theorem updVips_delivery_bids (db : DB) (p : VIPCustomer → Bool) (f : VIPCustomer → VIPCustomer) :
    (db.updVips p f).delivery_bids = db.delivery_bids := rfl

theorem updVips_next_id (db : DB) (p : VIPCustomer → Bool) (f : VIPCustomer → VIPCustomer) :
    (db.updVips p f).next_id = db.next_id := rfl

theorem updChefs_users (db : DB) (p : Chef → Bool) (f : Chef → Chef) :
    (db.updChefs p f).users = db.users := rfl

theorem updChefs_customers (db : DB) (p : Chef → Bool) (f : Chef → Chef) :
    (db.updChefs p f).customers = db.customers := rfl

theorem updChefs_vip_customers (db : DB) (p : Chef → Bool) (f : Chef → Chef) :
    (db.updChefs p f).vip_customers = db.vip_customers := rfl

theorem updChefs_chefs (db : DB) (p : Chef → Bool) (f : Chef → Chef) :
    (db.updChefs p f).chefs = listUpdate p f db.chefs := rfl

theorem updChefs_delivery_persons (db : DB) (p : Chef → Bool) (f : Chef → Chef) :
    (db.updChefs p f).delivery_persons = db.delivery_persons := rfl

theorem updChefs_wallets (db : DB) (p : Chef → Bool) (f : Chef → Chef) :
    (db.updChefs p f).wallets = db.wallets := rfl

theorem updChefs_transactions (db : DB) (p : Chef → Bool) (f : Chef → Chef) :
    (db.updChefs p f).transactions = db.transactions := rfl

theorem updChefs_orders (db : DB) (p : Chef → Bool) (f : Chef → Chef) :
    (db.updChefs p f).orders = db.orders := rfl

theorem updChefs_order_items (db : DB) (p : Chef → Bool) (f : Chef → Chef) :
    (db.updChefs p f).order_items = db.order_items := rfl

theorem updChefs_dishes (db : DB) (p : Chef → Bool) (f : Chef → Chef) :
    (db.updChefs p f).dishes = db.dishes := rfl

theorem updChefs_reputations (db : DB) (p : Chef → Bool) (f : Chef → Chef) :
    (db.updChefs p f).reputations = db.reputations := rfl

theorem updChefs_reputation_events (db : DB) (p : Chef → Bool) (f : Chef → Chef) :
    (db.updChefs p f).reputation_events = db.reputation_events := rfl

theorem updChefs_complaints (db : DB) (p : Chef → Bool) (f : Chef → Chef) :
    (db.updChefs p f).complaints = db.complaints := rfl

theorem updChefs_deliveries (db : DB) (p : Chef → Bool) (f : Chef → Chef) :
    (db.updChefs p f).deliveries = db.deliveries := rfl

theorem updChefs_delivery_bids (db : DB) (p : Chef → Bool) (f : Chef → Chef) :
    (db.updChefs p f).delivery_bids = db.delivery_bids := rfl

theorem updChefs_next_id (db : DB) (p : Chef → Bool) (f : Chef → Chef) :
    (db.updChefs p f).next_id = db.next_id := rfl

theorem updDPs_users (db : DB) (p : DeliveryPerson → Bool) (f : DeliveryPerson → DeliveryPerson) :
    (db.updDPs p f).users = db.users := rfl

theorem updDPs_customers (db : DB) (p : DeliveryPerson → Bool) (f : DeliveryPerson → DeliveryPerson) :
    (db.updDPs p f).customers = db.customers := rfl

theorem updDPs_vip_customers (db : DB) (p : DeliveryPerson → Bool) (f : DeliveryPerson → DeliveryPerson) :
    (db.updDPs p f).vip_customers = db.vip_customers := rfl

theorem updDPs_chefs (db : DB) (p : DeliveryPerson → Bool) (f : DeliveryPerson → DeliveryPerson) :
    (db.updDPs p f).chefs = db.chefs := rfl

theorem updDPs_delivery_persons (db : DB) (p : DeliveryPerson → Bool) (f : DeliveryPerson → DeliveryPerson) :
    (db.updDPs p f).delivery_persons = listUpdate p f db.delivery_persons := rfl

theorem updDPs_wallets (db : DB) (p : DeliveryPerson → Bool) (f : DeliveryPerson → DeliveryPerson) :
    (db.updDPs p f).wallets = db.wallets := rfl

theorem updDPs_transactions (db : DB) (p : DeliveryPerson → Bool) (f : DeliveryPerson → DeliveryPerson) :
    (db.updDPs p f).transactions = db.transactions := rfl

theorem updDPs_orders (db : DB) (p : DeliveryPerson → Bool) (f : DeliveryPerson → DeliveryPerson) :
    (db.updDPs p f).orders = db.orders := rfl

theorem updDPs_order_items (db : DB) (p : DeliveryPerson → Bool) (f : DeliveryPerson → DeliveryPerson) :
    (db.updDPs p f).order_items = db.order_items := rfl

theorem updDPs_dishes (db : DB) (p : DeliveryPerson → Bool) (f : DeliveryPerson → DeliveryPerson) :
    (db.updDPs p f).dishes = db.dishes := rfl

theorem updDPs_reputations (db : DB) (p : DeliveryPerson → Bool) (f : DeliveryPerson → DeliveryPerson) :
    (db.updDPs p f).reputations = db.reputations := rfl

theorem updDPs_reputation_events (db : DB) (p : DeliveryPerson → Bool) (f : DeliveryPerson → DeliveryPerson) :
    (db.updDPs p f).reputation_events = db.reputation_events := rfl

theorem updDPs_complaints (db : DB) (p : DeliveryPerson → Bool) (f : DeliveryPerson → DeliveryPerson) :
    (db.updDPs p f).complaints = db.complaints := rfl

theorem updDPs_deliveries (db : DB) (p : DeliveryPerson → Bool) (f : DeliveryPerson → DeliveryPerson) :
    (db.updDPs p f).deliveries = db.deliveries := rfl

theorem updDPs_delivery_bids (db : DB) (p : DeliveryPerson → Bool) (f : DeliveryPerson → DeliveryPerson) :
    (db.updDPs p f).delivery_bids = db.delivery_bids := rfl

theorem updDPs_next_id (db : DB) (p : DeliveryPerson → Bool) (f : DeliveryPerson → DeliveryPerson) :
    (db.updDPs p f).next_id = db.next_id := rfl

theorem updWallets_users (db : DB) (p : Wallet → Bool) (f : Wallet → Wallet) :
    (db.updWallets p f).users = db.users := rfl

theorem updWallets_customers (db : DB) (p : Wallet → Bool) (f : Wallet → Wallet) :
    (db.updWallets p f).customers = db.customers := rfl

theorem updWallets_vip_customers (db : DB) (p : Wallet → Bool) (f : Wallet → Wallet) :
    (db.updWallets p f).vip_customers = db.vip_customers := rfl

theorem updWallets_chefs (db : DB) (p : Wallet → Bool) (f : Wallet → Wallet) :
    (db.updWallets p f).chefs = db.chefs := rfl

theorem updWallets_delivery_persons (db : DB) (p : Wallet → Bool) (f : Wallet → Wallet) :
    (db.updWallets p f).delivery_persons = db.delivery_persons := rfl

theorem updWallets_wallets (db : DB) (p : Wallet → Bool) (f : Wallet → Wallet) :
    (db.updWallets p f).wallets = listUpdate p f db.wallets := rfl

theorem updWallets_transactions (db : DB) (p : Wallet → Bool) (f : Wallet → Wallet) :
    (db.updWallets p f).transactions = db.transactions := rfl

theorem updWallets_orders (db : DB) (p : Wallet → Bool) (f : Wallet → Wallet) :
    (db.updWallets p f).orders = db.orders := rfl

theorem updWallets_order_items (db : DB) (p : Wallet → Bool) (f : Wallet → Wallet) :
    (db.updWallets p f).order_items = db.order_items := rfl

theorem updWallets_dishes (db : DB) (p : Wallet → Bool) (f : Wallet → Wallet) :
    (db.updWallets p f).dishes = db.dishes := rfl

theorem updWallets_reputations (db : DB) (p : Wallet → Bool) (f : Wallet → Wallet) :
    (db.updWallets p f).reputations = db.reputations := rfl

theorem updWallets_reputation_events (db : DB) (p : Wallet → Bool) (f : Wallet → Wallet) :
    (db.updWallets p f).reputation_events = db.reputation_events := rfl

theorem updWallets_complaints (db : DB) (p : Wallet → Bool) (f : Wallet → Wallet) :
    (db.updWallets p f).complaints = db.complaints := rfl

theorem updWallets_deliveries (db : DB) (p : Wallet → Bool) (f : Wallet → Wallet) :
    (db.updWallets p f).deliveries = db.deliveries := rfl

theorem updWallets_delivery_bids (db : DB) (p : Wallet → Bool) (f : Wallet → Wallet) :
    (db.updWallets p f).delivery_bids = db.delivery_bids := rfl

theorem updWallets_next_id (db : DB) (p : Wallet → Bool) (f : Wallet → Wallet) :
    (db.updWallets p f).next_id = db.next_id := rfl

theorem updOrders_users (db : DB) (p : Order → Bool) (f : Order → Order) :
    (db.updOrders p f).users = db.users := rfl

theorem updOrders_customers (db : DB) (p : Order → Bool) (f : Order → Order) :
    (db.updOrders p f).customers = db.customers := rfl

theorem updOrders_vip_customers (db : DB) (p : Order → Bool) (f : Order → Order) :
    (db.updOrders p f).vip_customers = db.vip_customers := rfl

theorem updOrders_chefs (db : DB) (p : Order → Bool) (f : Order → Order) :
    (db.updOrders p f).chefs = db.chefs := rfl

theorem updOrders_delivery_persons (db : DB) (p : Order → Bool) (f : Order → Order) :
    (db.updOrders p f).delivery_persons = db.delivery_persons := rfl

theorem updOrders_wallets (db : DB) (p : Order → Bool) (f : Order → Order) :
    (db.updOrders p f).wallets = db.wallets := rfl

theorem updOrders_transactions (db : DB) (p : Order → Bool) (f : Order → Order) :
    (db.updOrders p f).transactions = db.transactions := rfl

theorem updOrders_orders (db : DB) (p : Order → Bool) (f : Order → Order) :
    (db.updOrders p f).orders = listUpdate p f db.orders := rfl

theorem updOrders_order_items (db : DB) (p : Order → Bool) (f : Order → Order) :
    (db.updOrders p f).order_items = db.order_items := rfl

theorem updOrders_dishes (db : DB) (p : Order → Bool) (f : Order → Order) :
    (db.updOrders p f).dishes = db.dishes := rfl

theorem updOrders_reputations (db : DB) (p : Order → Bool) (f : Order → Order) :
    (db.updOrders p f).reputations = db.reputations := rfl

theorem updOrders_reputation_events (db : DB) (p : Order → Bool) (f : Order → Order) :
    (db.updOrders p f).reputation_events = db.reputation_events := rfl

theorem updOrders_complaints (db : DB) (p : Order → Bool) (f : Order → Order) :
    (db.updOrders p f).complaints = db.complaints := rfl

theorem updOrders_deliveries (db : DB) (p : Order → Bool) (f : Order → Order) :
    (db.updOrders p f).deliveries = db.deliveries := rfl

theorem updOrders_delivery_bids (db : DB) (p : Order → Bool) (f : Order → Order) :
    (db.updOrders p f).delivery_bids = db.delivery_bids := rfl

theorem updOrders_next_id (db : DB) (p : Order → Bool) (f : Order → Order) :
    (db.updOrders p f).next_id = db.next_id := rfl

theorem updDishes_users (db : DB) (p : Dish → Bool) (f : Dish → Dish) :
    (db.updDishes p f).users = db.users := rfl

theorem updDishes_customers (db : DB) (p : Dish → Bool) (f : Dish → Dish) :
    (db.updDishes p f).customers = db.customers := rfl

theorem updDishes_vip_customers (db : DB) (p : Dish → Bool) (f : Dish → Dish) :
    (db.updDishes p f).vip_customers = db.vip_customers := rfl

theorem updDishes_chefs (db : DB) (p : Dish → Bool) (f : Dish → Dish) :
    (db.updDishes p f).chefs = db.chefs := rfl

theorem updDishes_delivery_persons (db : DB) (p : Dish → Bool) (f : Dish → Dish) :
    (db.updDishes p f).delivery_persons = db.delivery_persons := rfl

theorem updDishes_wallets (db : DB) (p : Dish → Bool) (f : Dish → Dish) :
    (db.updDishes p f).wallets = db.wallets := rfl

theorem updDishes_transactions (db : DB) (p : Dish → Bool) (f : Dish → Dish) :
    (db.updDishes p f).transactions = db.transactions := rfl

theorem updDishes_orders (db : DB) (p : Dish → Bool) (f : Dish → Dish) :
    (db.updDishes p f).orders = db.orders := rfl

theorem updDishes_order_items (db : DB) (p : Dish → Bool) (f : Dish → Dish) :
    (db.updDishes p f).order_items = db.order_items := rfl

theorem updDishes_dishes (db : DB) (p : Dish → Bool) (f : Dish → Dish) :
    (db.updDishes p f).dishes = listUpdate p f db.dishes := rfl

theorem updDishes_reputations (db : DB) (p : Dish → Bool) (f : Dish → Dish) :
    (db.updDishes p f).reputations = db.reputations := rfl

theorem updDishes_reputation_events (db : DB) (p : Dish → Bool) (f : Dish → Dish) :
    (db.updDishes p f).reputation_events = db.reputation_events := rfl

theorem updDishes_complaints (db : DB) (p : Dish → Bool) (f : Dish → Dish) :
    (db.updDishes p f).complaints = db.complaints := rfl

theorem updDishes_deliveries (db : DB) (p : Dish → Bool) (f : Dish → Dish) :
    (db.updDishes p f).deliveries = db.deliveries := rfl

theorem updDishes_delivery_bids (db : DB) (p : Dish → Bool) (f : Dish → Dish) :
    (db.updDishes p f).delivery_bids = db.delivery_bids := rfl

theorem updDishes_next_id (db : DB) (p : Dish → Bool) (f : Dish → Dish) :
    (db.updDishes p f).next_id = db.next_id := rfl

theorem updReputations_users (db : DB) (p : Reputation → Bool) (f : Reputation → Reputation) :
    (db.updReputations p f).users = db.users := rfl

theorem updReputations_customers (db : DB) (p : Reputation → Bool) (f : Reputation → Reputation) :
    (db.updReputations p f).customers = db.customers := rfl

theorem updReputations_vip_customers (db : DB) (p : Reputation → Bool) (f : Reputation → Reputation) :
    (db.updReputations p f).vip_customers = db.vip_customers := rfl

theorem updReputations_chefs (db : DB) (p : Reputation → Bool) (f : Reputation → Reputation) :
    (db.updReputations p f).chefs = db.chefs := rfl

theorem updReputations_delivery_persons (db : DB) (p : Reputation → Bool) (f : Reputation → Reputation) :
    (db.updReputations p f).delivery_persons = db.delivery_persons := rfl

theorem updReputations_wallets (db : DB) (p : Reputation → Bool) (f : Reputation → Reputation) :
    (db.updReputations p f).wallets = db.wallets := rfl

theorem updReputations_transactions (db : DB) (p : Reputation → Bool) (f : Reputation → Reputation) :
    (db.updReputations p f).transactions = db.transactions := rfl

theorem updReputations_orders (db : DB) (p : Reputation → Bool) (f : Reputation → Reputation) :
    (db.updReputations p f).orders = db.orders := rfl

theorem updReputations_order_items (db : DB) (p : Reputation → Bool) (f : Reputation → Reputation) :
    (db.updReputations p f).order_items = db.order_items := rfl

theorem updReputations_dishes (db : DB) (p : Reputation → Bool) (f : Reputation → Reputation) :
    (db.updReputations p f).dishes = db.dishes := rfl

theorem updReputations_reputations (db : DB) (p : Reputation → Bool) (f : Reputation → Reputation) :
    (db.updReputations p f).reputations = listUpdate p f db.reputations := rfl

theorem updReputations_reputation_events (db : DB) (p : Reputation → Bool) (f : Reputation → Reputation) :
    (db.updReputations p f).reputation_events = db.reputation_events := rfl

theorem updReputations_complaints (db : DB) (p : Reputation → Bool) (f : Reputation → Reputation) :
    (db.updReputations p f).complaints = db.complaints := rfl

theorem updReputations_deliveries (db : DB) (p : Reputation → Bool) (f : Reputation → Reputation) :
    (db.updReputations p f).deliveries = db.deliveries := rfl

theorem updReputations_delivery_bids (db : DB) (p : Reputation → Bool) (f : Reputation → Reputation) :
    (db.updReputations p f).delivery_bids = db.delivery_bids := rfl

theorem updReputations_next_id (db : DB) (p : Reputation → Bool) (f : Reputation → Reputation) :
    (db.updReputations p f).next_id = db.next_id := rfl

theorem updDeliveries_users (db : DB) (p : Delivery → Bool) (f : Delivery → Delivery) :
    (db.updDeliveries p f).users = db.users := rfl

theorem updDeliveries_customers (db : DB) (p : Delivery → Bool) (f : Delivery → Delivery) :
    (db.updDeliveries p f).customers = db.customers := rfl

theorem updDeliveries_vip_customers (db : DB) (p : Delivery → Bool) (f : Delivery → Delivery) :
    (db.updDeliveries p f).vip_customers = db.vip_customers := rfl

theorem updDeliveries_chefs (db : DB) (p : Delivery → Bool) (f : Delivery → Delivery) :
    (db.updDeliveries p f).chefs = db.chefs := rfl

theorem updDeliveries_delivery_persons (db : DB) (p : Delivery → Bool) (f : Delivery → Delivery) :
    (db.updDeliveries p f).delivery_persons = db.delivery_persons := rfl

theorem updDeliveries_wallets (db : DB) (p : Delivery → Bool) (f : Delivery → Delivery) :
    (db.updDeliveries p f).wallets = db.wallets := rfl

theorem updDeliveries_transactions (db : DB) (p : Delivery → Bool) (f : Delivery → Delivery) :
    (db.updDeliveries p f).transactions = db.transactions := rfl

theorem updDeliveries_orders (db : DB) (p : Delivery → Bool) (f : Delivery → Delivery) :
    (db.updDeliveries p f).orders = db.orders := rfl

theorem updDeliveries_order_items (db : DB) (p : Delivery → Bool) (f : Delivery → Delivery) :
    (db.updDeliveries p f).order_items = db.order_items := rfl

theorem updDeliveries_dishes (db : DB) (p : Delivery → Bool) (f : Delivery → Delivery) :
    (db.updDeliveries p f).dishes = db.dishes := rfl

theorem updDeliveries_reputations (db : DB) (p : Delivery → Bool) (f : Delivery → Delivery) :
    (db.updDeliveries p f).reputations = db.reputations := rfl

theorem updDeliveries_reputation_events (db : DB) (p : Delivery → Bool) (f : Delivery → Delivery) :
    (db.updDeliveries p f).reputation_events = db.reputation_events := rfl

theorem updDeliveries_complaints (db : DB) (p : Delivery → Bool) (f : Delivery → Delivery) :
    (db.updDeliveries p f).complaints = db.complaints := rfl

theorem updDeliveries_deliveries (db : DB) (p : Delivery → Bool) (f : Delivery → Delivery) :
    (db.updDeliveries p f).deliveries = listUpdate p f db.deliveries := rfl

theorem updDeliveries_delivery_bids (db : DB) (p : Delivery → Bool) (f : Delivery → Delivery) :
    (db.updDeliveries p f).delivery_bids = db.delivery_bids := rfl

theorem updDeliveries_next_id (db : DB) (p : Delivery → Bool) (f : Delivery → Delivery) :
    (db.updDeliveries p f).next_id = db.next_id := rfl

theorem updBids_users (db : DB) (p : DeliveryBid → Bool) (f : DeliveryBid → DeliveryBid) :
    (db.updBids p f).users = db.users := rfl

theorem updBids_customers (db : DB) (p : DeliveryBid → Bool) (f : DeliveryBid → DeliveryBid) :
    (db.updBids p f).customers = db.customers := rfl

theorem updBids_vip_customers (db : DB) (p : DeliveryBid → Bool) (f : DeliveryBid → DeliveryBid) :
    (db.updBids p f).vip_customers = db.vip_customers := rfl

theorem updBids_chefs (db : DB) (p : DeliveryBid → Bool) (f : DeliveryBid → DeliveryBid) :
    (db.updBids p f).chefs = db.chefs := rfl

theorem updBids_delivery_persons (db : DB) (p : DeliveryBid → Bool) (f : DeliveryBid → DeliveryBid) :
    (db.updBids p f).delivery_persons = db.delivery_persons := rfl

theorem updBids_wallets (db : DB) (p : DeliveryBid → Bool) (f : DeliveryBid → DeliveryBid) :
    (db.updBids p f).wallets = db.wallets := rfl

theorem updBids_transactions (db : DB) (p : DeliveryBid → Bool) (f : DeliveryBid → DeliveryBid) :
    (db.updBids p f).transactions = db.transactions := rfl

theorem updBids_orders (db : DB) (p : DeliveryBid → Bool) (f : DeliveryBid → DeliveryBid) :
    (db.updBids p f).orders = db.orders := rfl

theorem updBids_order_items (db : DB) (p : DeliveryBid → Bool) (f : DeliveryBid → DeliveryBid) :
    (db.updBids p f).order_items = db.order_items := rfl

theorem updBids_dishes (db : DB) (p : DeliveryBid → Bool) (f : DeliveryBid → DeliveryBid) :
    (db.updBids p f).dishes = db.dishes := rfl

theorem updBids_reputations (db : DB) (p : DeliveryBid → Bool) (f : DeliveryBid → DeliveryBid) :
    (db.updBids p f).reputations = db.reputations := rfl

theorem updBids_reputation_events (db : DB) (p : DeliveryBid → Bool) (f : DeliveryBid → DeliveryBid) :
    (db.updBids p f).reputation_events = db.reputation_events := rfl

theorem updBids_complaints (db : DB) (p : DeliveryBid → Bool) (f : DeliveryBid → DeliveryBid) :
    (db.updBids p f).complaints = db.complaints := rfl

theorem updBids_deliveries (db : DB) (p : DeliveryBid → Bool) (f : DeliveryBid → DeliveryBid) :
    (db.updBids p f).deliveries = db.deliveries := rfl

theorem updBids_delivery_bids (db : DB) (p : DeliveryBid → Bool) (f : DeliveryBid → DeliveryBid) :
    (db.updBids p f).delivery_bids = listUpdate p f db.delivery_bids := rfl

theorem updBids_next_id (db : DB) (p : DeliveryBid → Bool) (f : DeliveryBid → DeliveryBid) :
    (db.updBids p f).next_id = db.next_id := rfl

theorem addTransaction_users (db : DB) (t : Transaction) :
    (db.addTransaction t).users = db.users := rfl

theorem addTransaction_customers (db : DB) (t : Transaction) :
    (db.addTransaction t).customers = db.customers := rfl

theorem addTransaction_vip_customers (db : DB) (t : Transaction) :
    (db.addTransaction t).vip_customers = db.vip_customers := rfl

theorem addTransaction_chefs (db : DB) (t : Transaction) :
    (db.addTransaction t).chefs = db.chefs := rfl

theorem addTransaction_delivery_persons (db : DB) (t : Transaction) :
    (db.addTransaction t).delivery_persons = db.delivery_persons := rfl

theorem addTransaction_wallets (db : DB) (t : Transaction) :
    (db.addTransaction t).wallets = db.wallets := rfl

theorem addTransaction_transactions (db : DB) (t : Transaction) :
    (db.addTransaction t).transactions = db.transactions ++ [t] := rfl

theorem addTransaction_orders (db : DB) (t : Transaction) :
    (db.addTransaction t).orders = db.orders := rfl

theorem addTransaction_order_items (db : DB) (t : Transaction) :
    (db.addTransaction t).order_items = db.order_items := rfl

theorem addTransaction_dishes (db : DB) (t : Transaction) :
    (db.addTransaction t).dishes = db.dishes := rfl

theorem addTransaction_reputations (db : DB) (t : Transaction) :
    (db.addTransaction t).reputations = db.reputations := rfl

theorem addTransaction_reputation_events (db : DB) (t : Transaction) :
    (db.addTransaction t).reputation_events = db.reputation_events := rfl

theorem addTransaction_complaints (db : DB) (t : Transaction) :
    (db.addTransaction t).complaints = db.complaints := rfl

theorem addTransaction_deliveries (db : DB) (t : Transaction) :
    (db.addTransaction t).deliveries = db.deliveries := rfl

theorem addTransaction_delivery_bids (db : DB) (t : Transaction) :
    (db.addTransaction t).delivery_bids = db.delivery_bids := rfl

theorem addTransaction_next_id (db : DB) (t : Transaction) :
    (db.addTransaction t).next_id = db.next_id := rfl

theorem addEvent_users (db : DB) (t : ReputationEvent) :
    (db.addEvent t).users = db.users := rfl

theorem addEvent_customers (db : DB) (t : ReputationEvent) :
    (db.addEvent t).customers = db.customers := rfl

theorem addEvent_vip_customers (db : DB) (t : ReputationEvent) :
    (db.addEvent t).vip_customers = db.vip_customers := rfl

theorem addEvent_chefs (db : DB) (t : ReputationEvent) :
    (db.addEvent t).chefs = db.chefs := rfl

theorem addEvent_delivery_persons (db : DB) (t : ReputationEvent) :
    (db.addEvent t).delivery_persons = db.delivery_persons := rfl

theorem addEvent_wallets (db : DB) (t : ReputationEvent) :
    (db.addEvent t).wallets = db.wallets := rfl

theorem addEvent_transactions (db : DB) (t : ReputationEvent) :
    (db.addEvent t).transactions = db.transactions := rfl

theorem addEvent_orders (db : DB) (t : ReputationEvent) :
    (db.addEvent t).orders = db.orders := rfl

theorem addEvent_order_items (db : DB) (t : ReputationEvent) :
    (db.addEvent t).order_items = db.order_items := rfl

theorem addEvent_dishes (db : DB) (t : ReputationEvent) :
    (db.addEvent t).dishes = db.dishes := rfl

theorem addEvent_reputations (db : DB) (t : ReputationEvent) :
    (db.addEvent t).reputations = db.reputations := rfl

theorem addEvent_reputation_events (db : DB) (t : ReputationEvent) :
    (db.addEvent t).reputation_events = db.reputation_events ++ [t] := rfl

theorem addEvent_complaints (db : DB) (t : ReputationEvent) :
    (db.addEvent t).complaints = db.complaints := rfl

theorem addEvent_deliveries (db : DB) (t : ReputationEvent) :
    (db.addEvent t).deliveries = db.deliveries := rfl

theorem addEvent_delivery_bids (db : DB) (t : ReputationEvent) :
    (db.addEvent t).delivery_bids = db.delivery_bids := rfl

theorem addEvent_next_id (db : DB) (t : ReputationEvent) :
    (db.addEvent t).next_id = db.next_id := rfl

/-! ## List lemmas for row updates -/

theorem find?_listUpdate {α : Type} (p q : α → Bool) (f : α → α) (l : List α)
    (h : ∀ a, q (f a) = q a) :
    (listUpdate p f l).find? q = (l.find? q).map (fun a => if p a then f a else a) := by
  induction l with
  | nil => rfl
  | cons a l ih =>
    show List.find? q ((if p a then f a else a) :: listUpdate p f l) = _
    by_cases hq : q a = true
    · rw [List.find?_cons_of_pos _ hq, Option.map_some']
      by_cases hp : p a = true
      · rw [if_pos hp, List.find?_cons_of_pos _ (by rw [h a]; exact hq)]
      · rw [if_neg hp, List.find?_cons_of_pos _ hq]
    · rw [List.find?_cons_of_neg _ hq]
      by_cases hp : p a = true
      · rw [if_pos hp, List.find?_cons_of_neg _ (by rw [h a]; exact hq), ih]
      · rw [if_neg hp, List.find?_cons_of_neg _ hq, ih]

theorem map_listUpdate {α β : Type} (p : α → Bool) (f : α → α) (g : α → β) (l : List α)
    (h : ∀ a, g (f a) = g a) :
    (listUpdate p f l).map g = l.map g := by
  induction l with
  | nil => rfl
  | cons a l ih =>
    show (g (if p a then f a else a)) :: (listUpdate p f l).map g = g a :: l.map g
    rw [ih]
    by_cases hp : p a = true
    · rw [if_pos hp, h a]
    · rw [if_neg hp]

theorem find?_append_left {α : Type} (p : α → Bool) (l₁ l₂ : List α) (a : α)
    (h : l₁.find? p = some a) : (l₁ ++ l₂).find? p = some a := by
  induction l₁ with
  | nil => simp at h
  | cons x l ih =>
    by_cases hx : p x = true
    · rw [List.find?_cons_of_pos _ hx] at h
      rw [List.cons_append, List.find?_cons_of_pos _ hx]
      exact h
    · rw [List.find?_cons_of_neg _ hx] at h
      rw [List.cons_append, List.find?_cons_of_neg _ hx]
      exact ih h

/-- The reputation score write keeps the row's subject. -/
theorem repApplyEvent_user_id (enum : ReputationEventType) (ns : ℤ)
    (r : Reputation) : (repApplyEvent enum ns r).user_id = r.user_id := by
  unfold repApplyEvent
  cases enum <;> rfl

/-! ## Step lemmas for the ledger operations -/

theorem listUpdate_fun_id {α : Type} (p : α → Bool) (l : List α) :
    listUpdate p (fun a => a) l = l := by
  induction l with
  | nil => rfl
  | cons a l ih =>
    show (if p a then a else a) :: listUpdate p (fun a => a) l = a :: l
    rw [ite_self, ih]

theorem forall_mem_listUpdate {α : Type} {l : List α} {p : α → Bool} {f : α → α}
    {P : α → Prop} (h : ∀ a ∈ l, P (if p a = true then f a else a)) :
    ∀ b ∈ listUpdate p f l, P b := by
  intro b hb
  obtain ⟨a, ha, rfl⟩ := List.mem_map.mp hb
  exact h a ha

theorem find?_eq_of_mem_of_nodup {α : Type} (key : α → Nat) {l : List α}
    (hnd : (l.map key).Nodup) {a : α} (ha : a ∈ l) :
    l.find? (fun x => key x == key a) = some a := by
  induction l with
  | nil => cases ha
  | cons x l ih =>
    rw [List.map_cons, List.nodup_cons] at hnd
    rcases List.mem_cons.mp ha with rfl | ha2
    · exact List.find?_cons_of_pos _ (by simp)
    · have hxa : key x ≠ key a := by
        intro he
        exact hnd.1 (he ▸ List.mem_map_of_mem key ha2)
      rw [List.find?_cons_of_neg _ (by simpa using hxa), ih hnd.2 ha2]

/-- One `refund_order` call on a state whose first `order_payment` row for
the order is `t` and whose wallet row is `w`. -/
theorem refund_step (db : DB) (order_id : Nat) (t : Transaction) (w : Wallet)
    (ht : db.transactions.find? (fun x => x.order_id == some order_id &&
      x.transaction_type == TransactionType.order_payment) = some t)
    (hw : db.wallets.find? (fun x => x.id == t.wallet_id) = some w) :
    ∃ db', refund_order db order_id = .ok (db', true, "Refunded to wallet") ∧
      db'.transactions = db.transactions ++
        [⟨w.id, some order_id, .refund, .success, t.amount, w.balance,
          w.balance + t.amount⟩] ∧
      db'.wallets = listUpdate (fun x => x.id == w.id)
        (fun x => { x with balance := x.balance + t.amount, total_refunded := x.total_refunded + t.amount }) db.wallets ∧
      db'.next_id = db.next_id := by
  unfold refund_order
  simp only [ht, hw]
  repeat' split
  all_goals exact ⟨_, rfl, rfl, rfl, rfl⟩

/-- One successful `process_payment` call: the wallet is debited, exactly one
bracketing `order_payment` row is appended, and the customer row is updated by
the stats bump followed by a possible VIP-upgrade write `g` that keeps the
identity and spending aggregates. -/
theorem process_payment_success (db : DB) (now order_id customer_id : Nat)
    (amount : ℚ) (c : Customer) (w : Wallet)
    (hc : db.customers.find? (fun x => x.id == customer_id) = some c)
    (hw : db.wallets.find? (fun x => x.user_id == c.user_id) = some w)
    (hbal : ¬ w.balance < amount) :
    ∃ db', process_payment db now order_id customer_id amount =
        (db', true, "Payment completed") ∧
      (∃ g : Customer → Customer,
        db'.customers = listUpdate (fun x => x.id == customer_id) g
          (listUpdate (fun x => x.id == customer_id)
            (fun x => { x with total_spent := x.total_spent + amount, total_orders := x.total_orders + 1 }) db.customers) ∧
        (∀ x, (g x).id = x.id ∧ (g x).user_id = x.user_id ∧
          (g x).total_orders = x.total_orders ∧ (g x).total_spent = x.total_spent)) ∧
      db'.wallets = listUpdate (fun x => x.id == w.id)
        (fun x => { x with balance := x.balance - amount, total_spent := x.total_spent + amount }) db.wallets ∧
      db'.transactions = db.transactions ++
        [⟨w.id, some order_id, .order_payment, .success, amount, w.balance,
          w.balance - amount⟩] ∧
      (db'.orders = db.orders ∨
        db'.orders = listUpdate (fun o => o.id == order_id)
          (fun o => { o with payment_status := .paid }) db.orders) ∧
      db'.vip_customers = db.vip_customers ∧
      db'.order_items = db.order_items ∧
      db'.dishes = db.dishes ∧
      db'.users = db.users ∧
      db'.reputations = db.reputations ∧
      db'.reputation_events = db.reputation_events ∧
      db'.next_id = db.next_id := by
  unfold process_payment
  simp only [hc, hw, if_neg hbal]
  by_cases hvip : c.is_vip = true
  all_goals first | rw [if_pos hvip] | rw [if_neg hvip]
  all_goals repeat' split
  all_goals (
    first
      | exact ⟨_, rfl, ⟨_, rfl, fun x => ⟨rfl, rfl, rfl, rfl⟩⟩, rfl, rfl,
          Or.inr rfl, rfl, rfl, rfl, rfl, rfl, rfl, rfl⟩
      | exact ⟨_, rfl, ⟨_, rfl, fun x => ⟨rfl, rfl, rfl, rfl⟩⟩, rfl, rfl,
          Or.inl rfl, rfl, rfl, rfl, rfl, rfl, rfl, rfl⟩
      | (refine ⟨_, rfl, ⟨fun x => x, ?_, fun x => ⟨rfl, rfl, rfl, rfl⟩⟩, rfl, rfl,
          Or.inr rfl, rfl, rfl, rfl, rfl, rfl, rfl, rfl⟩
         exact Eq.trans rfl (listUpdate_fun_id _ _).symm)
      | (refine ⟨_, rfl, ⟨fun x => x, ?_, fun x => ⟨rfl, rfl, rfl, rfl⟩⟩, rfl, rfl,
          Or.inl rfl, rfl, rfl, rfl, rfl, rfl, rfl, rfl⟩
         exact Eq.trans rfl (listUpdate_fun_id _ _).symm))


/-! ## Pricing and reputation auxiliary lemmas -/

/-- `computePricing` touches only the `vip_customers` table. -/
theorem computePricing_frame (db : DB) (c : Customer) (t : ℚ) :
    (computePricing db c t).1.users = db.users ∧
    (computePricing db c t).1.customers = db.customers ∧
    (computePricing db c t).1.wallets = db.wallets ∧
    (computePricing db c t).1.transactions = db.transactions ∧
    (computePricing db c t).1.orders = db.orders ∧
    (computePricing db c t).1.order_items = db.order_items ∧
    (computePricing db c t).1.dishes = db.dishes ∧
    (computePricing db c t).1.reputations = db.reputations ∧
    (computePricing db c t).1.reputation_events = db.reputation_events ∧
    (computePricing db c t).1.complaints = db.complaints ∧
    (computePricing db c t).1.next_id = db.next_id := by
  unfold computePricing
  repeat' split
  all_goals exact ⟨rfl, rfl, rfl, rfl, rfl, rfl, rfl, rfl, rfl, rfl, rfl⟩

/-- A VIP customer holding an unused free-delivery credit: `computePricing`
consumes the credit (`free_deliveries_used += 1`) and waives the fee. -/
theorem computePricing_vip_credit (db : DB) (c : Customer) (t : ℚ)
    (vr : VIPCustomer) (hv : c.is_vip = true)
    (hvr : db.vip_customers.find? (fun v => v.customer_id == c.id) = some vr)
    (hcr : vr.free_deliveries_earned > vr.free_deliveries_used) :
    computePricing db c t =
      (db.updVips (fun v => v.customer_id == c.id)
        (fun v => { v with free_deliveries_used := v.free_deliveries_used + 1 }),
       t * (settings.VIP_DISCOUNT_PERCENTAGE / 100), 0, true,
       t - t * (settings.VIP_DISCOUNT_PERCENTAGE / 100) + 0) := by
  unfold computePricing
  rw [if_pos hv]
  simp only [hvr]
  rw [if_pos hcr]

theorem find?_updRep (l : List Reputation) (rid uid : Nat)
    (enum : ReputationEventType) (ns : ℤ) :
    (listUpdate (fun r => r.id == rid) (repApplyEvent enum ns) l).find?
        (fun r => r.user_id == uid) =
      (l.find? (fun r => r.user_id == uid)).map
        (fun r => if r.id == rid then repApplyEvent enum ns r else r) :=
  find?_listUpdate _ _ _ _ (fun r => by rw [repApplyEvent_user_id])

/-- The dish-popularity fold of `create_order` leaves the customers table
unchanged. -/
theorem foldl_updDishes_customers (l : List (Dish × Nat)) (db : DB) :
    (l.foldl (fun acc it => acc.updDishes (fun d => d.id == it.1.id)
      (fun d => { d with times_ordered := d.times_ordered + it.2 })) db).customers =
      db.customers := by
  induction l generalizing db with
  | nil => rfl
  | cons a l ih =>
    rw [List.foldl_cons, ih]
    rfl

/-! ## Further list and reputation lemmas -/

theorem map_listUpdate_eq {α β : Type} (p : α → Bool) (f : α → α) (g : α → β)
    (l : List α) :
    (listUpdate p f l).map g = l.map (fun a => if p a then g (f a) else g a) := by
  unfold listUpdate
  rw [List.map_map]
  refine List.map_congr_left ?_
  intro a _
  by_cases hp : p a = true
  · simp only [Function.comp, if_pos hp]
  · simp only [Function.comp, if_neg hp]

theorem bidLe_refl (b : DeliveryBid) : bidLe b b = true := by
  unfold bidLe
  exact decide_eq_true (Or.inr ⟨rfl, le_refl _⟩)

theorem bidLe_trans (a b c : DeliveryBid) (h1 : bidLe a b = true)
    (h2 : bidLe b c = true) : bidLe a c = true := by
  unfold bidLe at *
  have h1' := of_decide_eq_true h1
  have h2' := of_decide_eq_true h2
  refine decide_eq_true ?_
  rcases h1' with h1' | ⟨he1, ht1⟩
  · rcases h2' with h2' | ⟨he2, ht2⟩
    · exact Or.inl (lt_trans h1' h2')
    · exact Or.inl (he2 ▸ h1')
  · rcases h2' with h2' | ⟨he2, ht2⟩
    · exact Or.inl (he1 ▸ h2')
    · exact Or.inr ⟨he1.trans he2, le_trans ht1 ht2⟩

theorem bidLe_total (a b : DeliveryBid) : (bidLe a b || bidLe b a) = true := by
  unfold bidLe
  rcases lt_trichotomy a.bid_amount b.bid_amount with h | h | h
  · exact Or.inl (decide_eq_true (Or.inl h)) |> Bool.or_eq_true_iff.mpr
  · rcases Nat.le_total a.created_at b.created_at with ht | ht
    · exact Bool.or_eq_true_iff.mpr (Or.inl (decide_eq_true (Or.inr ⟨h, ht⟩)))
    · exact Bool.or_eq_true_iff.mpr (Or.inr (decide_eq_true (Or.inr ⟨h.symm, ht⟩)))
  · exact Bool.or_eq_true_iff.mpr (Or.inr (decide_eq_true (Or.inl h)))

/-- Wallet-row lookup across the refund update (the update keeps primary
keys). -/
theorem find?_refundUpd (l : List Wallet) (wid qid : Nat) (amt : ℚ) :
    (listUpdate (fun x => x.id == wid)
        (fun x => { x with balance := x.balance + amt, total_refunded := x.total_refunded + amt }) l).find?
        (fun x => x.id == qid) =
      (l.find? (fun x => x.id == qid)).map
        (fun a => if a.id == wid then { a with balance := a.balance + amt, total_refunded := a.total_refunded + amt } else a) :=
  find?_listUpdate _ _ _ _ (fun a => rfl)

/-- **C9.** `refund_order` performs no already-refunded check: on any store
whose first `order_payment` ledger row for the order is `t` and whose wallet
row `w` backs that row, two successive `refund_order` calls both succeed, each
re-credits the full original amount, and together they raise the wallet
balance by exactly `2 * t.amount` while appending two refund rows. -/
theorem aislice_c9_refund_not_idempotent (db : DB) (order_id : Nat)
    (t : Transaction) (w : Wallet)
    (ht : db.transactions.find? (fun x => x.order_id == some order_id &&
      x.transaction_type == TransactionType.order_payment) = some t)
    (hw : db.wallets.find? (fun x => x.id == t.wallet_id) = some w) :
    ∃ db1 db2,
      refund_order db order_id = .ok (db1, true, "Refunded to wallet") ∧
      refund_order db1 order_id = .ok (db2, true, "Refunded to wallet") ∧
      (∃ w2, db2.wallets.find? (fun x => x.id == t.wallet_id) = some w2 ∧
        w2.balance = w.balance + 2 * t.amount) ∧
      db2.transactions.length = db.transactions.length + 2 := by
  obtain ⟨db1, h1, h1t, h1w, _⟩ := refund_step db order_id t w ht hw
  have hw1 : db1.wallets.find? (fun x => x.id == t.wallet_id) =
      some { w with balance := w.balance + t.amount, total_refunded := w.total_refunded + t.amount } := by
    rw [h1w, find?_refundUpd, hw]
    simp
  have ht1 : db1.transactions.find? (fun x => x.order_id == some order_id &&
      x.transaction_type == TransactionType.order_payment) = some t := by
    rw [h1t]
    exact find?_append_left _ _ _ _ ht
  obtain ⟨db2, h2, h2t, h2w, _⟩ := refund_step db1 order_id t _ ht1 hw1
  refine ⟨db1, db2, h1, h2,
    ⟨{ w with balance := w.balance + t.amount + t.amount, total_refunded := w.total_refunded + t.amount + t.amount }, ?_, ?_⟩, ?_⟩
  · rw [h2w, find?_refundUpd, hw1]
    simp
  · show w.balance + t.amount + t.amount = w.balance + 2 * t.amount
    ring
  · rw [h2t, h1t]
    simp

/-- **C9 witness.** Two refunds of the order-7 payment of 12 on `refundDB`:
the balance rises by 24 and two refund rows are appended. -/
theorem aislice_c9_refund_witness :
    (refundDB.transactions.find? (fun x => x.order_id == some 7 &&
      x.transaction_type == TransactionType.order_payment) =
        some ⟨21, some 7, .order_payment, .success, 12, 32, 20⟩) ∧
    (refundDB.wallets.find? (fun x => x.id == 21) =
      some ⟨21, 11, 20, 32, 12, 0⟩) ∧
    (∃ db1 db2,
      refund_order refundDB 7 = .ok (db1, true, "Refunded to wallet") ∧
      refund_order db1 7 = .ok (db2, true, "Refunded to wallet") ∧
      (∃ w2, db2.wallets.find? (fun x => x.id == 21) = some w2 ∧
        w2.balance = 20 + 2 * 12) ∧
      db2.transactions.length = refundDB.transactions.length + 2) :=
  ⟨rfl, rfl, aislice_c9_refund_not_idempotent refundDB 7
    ⟨21, some 7, .order_payment, .success, 12, 32, 20⟩
    ⟨21, 11, 20, 32, 12, 0⟩ rfl rfl⟩

/-- **C8.** On a delivery all of whose bids are already decided — in
particular one that was already assigned — a further `assign_agent` call
without an override finds zero pending bids and therefore overwrites the
delivery status to `no_bidders` and the order status to `ready_for_delivery`
while reporting failure, instead of failing without mutation. -/
theorem aislice_c8_reassign_overwrites (db : DB) (order_id : Nat) (o : Order)
    (delivery : Delivery)
    (ho : db.orders.find? (fun x => x.id == order_id) = some o)
    (hd : db.deliveries.find? (fun d => d.order_id == order_id) = some delivery)
    (hnb : pendingBids db delivery = []) :
    assign_agent db order_id none none =
      ((db.updDeliveries (fun d => d.id == delivery.id)
          (fun d => { d with status := .no_bidders })).updOrders
          (fun x => x.id == order_id)
          (fun x => { x with status := .ready_for_delivery }),
        false, "No bids. Manager must assign manually", none) := by
  unfold assign_agent
  simp only [ho, hd, hnb]
  rfl

/-- **C8 witness.** Re-running `assign_agent` on the already-assigned delivery
of `assignedDB` (both bids decided) downgrades it to `no_bidders` and resets
the order to `ready_for_delivery`. -/
theorem aislice_c8_witness :
    (assignedDB.orders.find? (fun x => x.id == 1) =
      some ⟨1, 1, .assigned_for_delivery, .paid, 10, 0, 5, 15, false, false, none⟩) ∧
    (assignedDB.deliveries.find? (fun d => d.order_id == 1) =
      some ⟨1, 1, some 31, .assigned, some .auto_assign, some 5, none, 100,
        none, none⟩) ∧
    (pendingBids assignedDB ⟨1, 1, some 31, .assigned, some .auto_assign,
      some 5, none, 100, none, none⟩ = []) ∧
    (assign_agent assignedDB 1 none none =
      ((assignedDB.updDeliveries (fun d => d.id == 1)
          (fun d => { d with status := .no_bidders })).updOrders
          (fun x => x.id == 1)
          (fun x => { x with status := .ready_for_delivery }),
        false, "No bids. Manager must assign manually", none)) ∧
    (assign_agent assignedDB 1 none none).1.deliveries.map Delivery.status =
      [.no_bidders] ∧
    (assign_agent assignedDB 1 none none).1.orders.map Order.status =
      [.ready_for_delivery] :=
  ⟨rfl, rfl, rfl,
    aislice_c8_reassign_overwrites assignedDB 1 _ _ rfl rfl rfl, rfl, rfl⟩

/-- **C7 counterexample.** The core `update_order_status` happily applies the
backwards transition `delivered → placed` and reports success: no whitelist is
enforced at the service layer. -/
theorem aislice_c7_counterexample :
    deliveredDB.orders.map Order.status = [.delivered] ∧
    (update_order_status deliveredDB 60 1 .placed).2 = true ∧
    (update_order_status deliveredDB 60 1 .placed).1.orders.map Order.status =
      [.placed] :=
  ⟨rfl, rfl, rfl⟩

/-- **C7** (amended). The core `update_order_status` enforces no whitelist:
for every existing order it applies any requested status and reports success.
The whitelisted edges live only in the chef API route, which rejects a target
other than `preparing`/`ready_for_delivery` outright, rejects `preparing`
unless the order is `placed`, and rejects `ready_for_delivery` unless the
order is `preparing`, each time leaving the store unchanged. -/
theorem aislice_c7_no_core_whitelist (db : DB) (now oid : Nat) (s : OrderStatus)
    (o : Order) (ho : db.orders.find? (fun x => x.id == oid) = some o) :
    ((update_order_status db now oid s).2 = true ∧
      (update_order_status db now oid s).1.orders =
        listUpdate (fun x => x.id == oid)
          (fun x =>
            let x' := { x with status := s }
            if s == OrderStatus.completed then { x' with completed_at := some now }
            else x') db.orders) ∧
    (s ≠ .preparing → s ≠ .ready_for_delivery →
      chef_update_order_status db now oid s =
        (db, false, "Invalid status transition for chef")) ∧
    (s = .preparing → o.status ≠ .placed →
      chef_update_order_status db now oid s =
        (db, false, "Can only move to PREPARING from PLACED")) ∧
    (s = .ready_for_delivery → o.status ≠ .preparing →
      chef_update_order_status db now oid s =
        (db, false, "Can only move to READY_FOR_DELIVERY from PREPARING")) := by
  refine ⟨?_, ?_, ?_, ?_⟩
  · unfold update_order_status
    simp only [ho]
    exact ⟨trivial, rfl⟩
  · intro h1 h2
    unfold chef_update_order_status
    simp only [ho]
    rw [if_neg (by simpa using h1), if_neg (by simpa using h2)]
  · intro hs hns
    subst hs
    have hb : (o.status != OrderStatus.placed) = true := by simpa using hns
    unfold chef_update_order_status
    simp only [ho]
    simp [hb]
  · intro hs hns
    subst hs
    have hb : (o.status != OrderStatus.preparing) = true := by simpa using hns
    unfold chef_update_order_status
    simp only [ho]
    simp [hb]

/-- **C7 witness.** At the delivered order of `deliveredDB`: the core call
applies `delivered → placed`, and the chef route rejects the same request. -/
theorem aislice_c7_witness :
    (deliveredDB.orders.find? (fun x => x.id == 1) =
      some ⟨1, 1, .delivered, .paid, 10, 0, 5, 15, false, false, some 50⟩) ∧
    (((update_order_status deliveredDB 60 1 .placed).2 = true ∧
      (update_order_status deliveredDB 60 1 .placed).1.orders =
        listUpdate (fun x => x.id == 1)
          (fun x =>
            let x' := { x with status := OrderStatus.placed }
            if OrderStatus.placed == OrderStatus.completed then
              { x' with completed_at := some 60 }
            else x') deliveredDB.orders) ∧
    (OrderStatus.placed ≠ .preparing → OrderStatus.placed ≠ .ready_for_delivery →
      chef_update_order_status deliveredDB 60 1 .placed =
        (deliveredDB, false, "Invalid status transition for chef")) ∧
    (OrderStatus.placed = .preparing →
      (⟨1, 1, .delivered, .paid, 10, 0, 5, 15, false, false, some 50⟩ :
        Order).status ≠ .placed →
      chef_update_order_status deliveredDB 60 1 .placed =
        (deliveredDB, false, "Can only move to PREPARING from PLACED")) ∧
    (OrderStatus.placed = .ready_for_delivery →
      (⟨1, 1, .delivered, .paid, 10, 0, 5, 15, false, false, some 50⟩ :
        Order).status ≠ .preparing →
      chef_update_order_status deliveredDB 60 1 .placed =
        (deliveredDB, false, "Can only move to READY_FOR_DELIVERY from PREPARING"))) :=
  ⟨rfl, aislice_c7_no_core_whitelist deliveredDB 60 1 .placed
    ⟨1, 1, .delivered, .paid, 10, 0, 5, 15, false, false, some 50⟩ rfl⟩

/-- Reputation-row lookup across the warning reset of `_demote_from_vip`. -/
theorem find?_warnReset (l : List Reputation) (wuid quid : Nat) :
    (listUpdate (fun r => r.user_id == wuid)
        (fun r => { r with total_warnings := 0 }) l).find?
        (fun r => r.user_id == quid) =
      (l.find? (fun r => r.user_id == quid)).map
        (fun r => if r.user_id == wuid then { r with total_warnings := 0 }
          else r) :=
  find?_listUpdate _ _ _ _ (fun a => rfl)

/-- Customer-row lookup across a key-preserving row update. -/
theorem find?_custUpd (l : List Customer) (cid qid : Nat) (f : Customer → Customer)
    (hf : ∀ x, (f x).id = x.id) :
    (listUpdate (fun x => x.id == cid) f l).find? (fun x => x.id == qid) =
      (l.find? (fun x => x.id == qid)).map
        (fun a => if a.id == cid then f a else a) :=
  find?_listUpdate _ _ _ _ (fun a => by rw [hf a])

/-- The VIP-progress bump changes no spending aggregate. -/
theorem map_tri_vipbump (l : List Customer) (cid : Nat) :
    (listUpdate (fun x => x.id == cid)
        (fun x => { x with vip_orders_count := x.vip_orders_count + 1 }) l).map
        (fun x => (x.id, x.total_orders, x.total_spent)) =
      l.map (fun x => (x.id, x.total_orders, x.total_spent)) :=
  map_listUpdate _ _ _ _ (fun a => rfl)

/-- The three aggregate writes a successful order applies to the customers
table — the `process_payment` bump, the possible VIP-upgrade write `g`, and
`create_order`'s own second bump — collapse to +2 orders / +2·amount spent on
the subject's row. -/
theorem c4_map_three (l : List Customer) (cid : Nat) (amt : ℚ)
    (g : Customer → Customer)
    (hgid : ∀ x, (g x).id = x.id)
    (hgord : ∀ x, (g x).total_orders = x.total_orders)
    (hgsp : ∀ x, (g x).total_spent = x.total_spent) :
    (listUpdate (fun x => x.id == cid)
        (fun x => { x with total_orders := x.total_orders + 1, total_spent := x.total_spent + amt })
        (listUpdate (fun x => x.id == cid) g
          (listUpdate (fun x => x.id == cid)
            (fun x => { x with total_spent := x.total_spent + amt, total_orders := x.total_orders + 1 }) l))).map
        (fun x => (x.id, x.total_orders, x.total_spent)) =
      l.map (fun x => if x.id == cid then
          (x.id, x.total_orders + 2, x.total_spent + 2 * amt)
        else (x.id, x.total_orders, x.total_spent)) := by
  rw [map_listUpdate_eq, map_listUpdate_eq, map_listUpdate_eq]
  refine List.map_congr_left ?_
  intro a _
  by_cases hp : (a.id == cid) = true
  · simp only [hgid, hgord, hgsp, hp, if_true]
    refine congrArg (Prod.mk a.id) ?_
    refine congrArg₂ Prod.mk (by omega) (by ring)
  · simp only [hp, Bool.false_eq_true, if_false]

/-- **C4 counterexample.** One successful order of total 15 on `richDB` leaves
the customer with `total_orders = 2` and `total_spent = 30` (a single payment
row): the aggregates are applied twice. -/
theorem aislice_c4_counterexample :
    ∃ db', create_order 5 0 richDB 1 [(1, 1)] =
        .ok (db', true, "Order created successfully", some 100) ∧
      richDB.customers.map (fun x => (x.total_orders, x.total_spent)) = [(0, 0)] ∧
      db'.customers.map (fun x => (x.total_orders, x.total_spent)) = [(2, 30)] ∧
      db'.transactions.length = 1 := by
  refine ⟨_, by with_unfolding_all rfl, rfl, ?_, ?_⟩
  · with_unfolding_all rfl
  · with_unfolding_all rfl

/-- **C4** (amended). Every successful `create_order` that charges final
amount `A` updates the customer's aggregates **twice**: once inside
`process_payment` and once again in `create_order`, for a net `total_orders`
increase of exactly 2 and a net `total_spent` increase of exactly `2·A`. -/
theorem aislice_c4_double_update (fuel now : Nat) (db : DB) (customer_id : Nat)
    (cart : List (Nat × Nat)) (c : Customer) (items : List (Dish × Nat))
    (w : Wallet) (T : ℚ)
    (hT : T = (items.map (fun it => it.1.price * (it.2 : ℚ))).sum)
    (hcart : cart.isEmpty = false)
    (hc : db.customers.find? (fun x => x.id == customer_id) = some c)
    (hscan : scanCart db c cart = Except.ok items)
    (hlen : (items.length == 0) = false)
    (hw : (computePricing db c T).1.wallets.find?
      (fun x => x.user_id == c.user_id) = some w)
    (hbal : ¬ w.balance < (computePricing db c T).2.2.2.2) :
    ∃ db', create_order fuel now db customer_id cart =
        .ok (db', true, "Order created successfully",
          some (computePricing db c T).1.next_id) ∧
      db'.customers.map (fun x => (x.id, x.total_orders, x.total_spent)) =
        db.customers.map (fun x => if x.id == customer_id then
            (x.id, x.total_orders + 2,
              x.total_spent + 2 * (computePricing db c T).2.2.2.2)
          else (x.id, x.total_orders, x.total_spent)) := by
  subst hT
  unfold create_order
  rw [if_neg (by simp [hcart])]
  simp only [hc, hscan]
  rw [if_neg (by simp [hlen])]
  rcases hcp : computePricing db c
      ((items.map (fun it => it.1.price * (it.2 : ℚ))).sum) with
    ⟨db0, disc, fee, fr, fin0⟩
  obtain ⟨hcu0, hcc0, hcw0, hct0, hco0, hcoi0, hcd0, hcr0, hcre0, hccp0, hcn0⟩ :=
    computePricing_frame db c ((items.map (fun it => it.1.price * (it.2 : ℚ))).sum)
  rw [hcp] at hw hbal hcu0 hcc0 hcw0 hct0 hco0 hcoi0 hcd0 hcr0 hcre0 hccp0 hcn0
  simp only at hw hbal hcu0 hcc0 hcw0 hct0 hco0 hcoi0 hcd0 hcr0 hcre0 hccp0 hcn0
  rw [hcp]
  simp only [hw]
  rw [if_neg hbal]
  have hcid : (c.id == customer_id) = true := by simpa using List.find?_some hc
  generalize hX : (⟨db0.users, db0.customers, db0.vip_customers, db0.chefs,
    db0.delivery_persons, db0.wallets, db0.transactions,
    db0.orders ++ [(⟨db0.next_id, customer_id, .pending_payment, .pending,
      (items.map (fun it => it.1.price * (it.2 : ℚ))).sum, disc, fee, fin0,
      c.is_vip, fr, none⟩ : Order)],
    db0.order_items ++ List.map (fun it => (⟨db0.next_id, it.1.id, it.2,
      it.1.price, it.1.price * (it.2 : ℚ)⟩ : OrderItem)) items,
    db0.dishes, db0.reputations, db0.reputation_events, db0.complaints,
    db0.deliveries, db0.delivery_bids, db0.next_id + 1⟩ : DB) = db2v
  have hc2 : db2v.customers.find? (fun x => x.id == customer_id) = some c := by
    rw [← hX]
    show db0.customers.find? (fun x => x.id == customer_id) = some c
    rw [hcc0]
    exact hc
  have hw2 : db2v.wallets.find? (fun x => x.user_id == c.user_id) = some w := by
    rw [← hX]
    show db0.wallets.find? (fun x => x.user_id == c.user_id) = some w
    exact hw
  obtain ⟨db3, hpp, ⟨g, hg, hgprop⟩, hw3, ht3, ho3, hv3, hoi3, hd3, hu3, hr3, hre3, hn3⟩ :=
    process_payment_success db2v now db0.next_id customer_id fin0 c w hc2 hw2 hbal
  rw [hpp]
  have hgid : ∀ x, (g x).id = x.id := fun x => (hgprop x).1
  have hgord : ∀ x, (g x).total_orders = x.total_orders :=
    fun x => (hgprop x).2.2.1
  have hgsp : ∀ x, (g x).total_spent = x.total_spent :=
    fun x => (hgprop x).2.2.2
  have hdb2c : db2v.customers = db.customers := by
    rw [← hX]
    exact hcc0
  rw [hdb2c] at hg
  have hfind5 : ((db3.updOrders (fun o => o.id == db0.next_id)
      (fun o => { o with status := .placed, payment_status := .paid })).updCustomers
      (fun x => x.id == customer_id)
      (fun x => { x with total_orders := x.total_orders + 1, total_spent := x.total_spent + fin0 })).customers.find?
      (fun x => x.id == customer_id) =
      some ((fun x => { x with total_orders := x.total_orders + 1, total_spent := x.total_spent + fin0 })
        (g ((fun x => { x with total_spent := x.total_spent + fin0, total_orders := x.total_orders + 1 }) c))) := by
    rw [updCustomers_customers, updOrders_customers, hg]
    rw [find?_custUpd _ customer_id customer_id
      (fun x => { x with total_orders := x.total_orders + 1, total_spent := x.total_spent + fin0 }) (fun x => rfl)]
    rw [find?_custUpd _ customer_id customer_id g hgid]
    rw [find?_custUpd _ customer_id customer_id
      (fun x => { x with total_spent := x.total_spent + fin0, total_orders := x.total_orders + 1 }) (fun x => rfl)]
    rw [hc]
    simp only [Option.map_some', hgid, hcid, if_true]
  have hmap : ∀ dbx : DB,
      dbx.customers = ((db3.updOrders (fun o => o.id == db0.next_id)
        (fun o => { o with status := .placed, payment_status := .paid })).updCustomers
        (fun x => x.id == customer_id)
        (fun x => { x with total_orders := x.total_orders + 1, total_spent := x.total_spent + fin0 })).customers ∨
      dbx.customers = listUpdate (fun x => x.id == customer_id)
        (fun x => { x with vip_orders_count := x.vip_orders_count + 1 })
        ((db3.updOrders (fun o => o.id == db0.next_id)
          (fun o => { o with status := .placed, payment_status := .paid })).updCustomers
          (fun x => x.id == customer_id)
          (fun x => { x with total_orders := x.total_orders + 1, total_spent := x.total_spent + fin0 })).customers →
      dbx.customers.map (fun x => (x.id, x.total_orders, x.total_spent)) =
        db.customers.map (fun x => if x.id == customer_id then
            (x.id, x.total_orders + 2, x.total_spent + 2 * fin0)
          else (x.id, x.total_orders, x.total_spent)) := by
    intro dbx hdbx
    have hbase : ((db3.updOrders (fun o => o.id == db0.next_id)
        (fun o => { o with status := .placed, payment_status := .paid })).updCustomers
        (fun x => x.id == customer_id)
        (fun x => { x with total_orders := x.total_orders + 1, total_spent := x.total_spent + fin0 })).customers =
        listUpdate (fun x => x.id == customer_id)
          (fun x => { x with total_orders := x.total_orders + 1, total_spent := x.total_spent + fin0 })
          (listUpdate (fun x => x.id == customer_id) g
            (listUpdate (fun x => x.id == customer_id)
              (fun x => { x with total_spent := x.total_spent + fin0, total_orders := x.total_orders + 1 })
              db.customers)) := by
      rw [updCustomers_customers, updOrders_customers, hg]
    rcases hdbx with hdbx | hdbx
    · rw [hdbx, hbase]
      exact c4_map_three db.customers customer_id fin0 g hgid hgord hgsp
    · rw [hdbx, hbase, map_tri_vipbump]
      exact c4_map_three db.customers customer_id fin0 g hgid hgord hgsp
  simp only [hfind5]
  split
  · -- the re-read customer row is VIP: the progress bump runs
    split
    · split
      · refine ⟨_, rfl, ?_⟩
        rw [foldl_updDishes_customers]
        refine hmap _ (Or.inr ?_)
        simp only [updVips_customers, updCustomers_customers]
      · refine ⟨_, rfl, ?_⟩
        rw [foldl_updDishes_customers]
        refine hmap _ (Or.inr ?_)
        simp only [updCustomers_customers]
    · refine ⟨_, rfl, ?_⟩
      rw [foldl_updDishes_customers]
      refine hmap _ (Or.inr ?_)
      simp only [updCustomers_customers]
  · -- non-VIP: no further customer write
    refine ⟨_, rfl, ?_⟩
    rw [foldl_updDishes_customers]
    exact hmap _ (Or.inl rfl)

/-- **C4 witness.** One order of final amount 15 on `richDB`: the aggregates
land at +2 orders and +30 spent. -/
theorem aislice_c4_witness :
    ((10 : ℚ) = ([((⟨1, 10, true, false, 0⟩ : Dish), (1 : Nat))].map
      (fun it => it.1.price * (it.2 : ℚ))).sum) ∧
    (([((1 : Nat), (1 : Nat))] : List (Nat × Nat)).isEmpty = false) ∧
    (richDB.customers.find? (fun x => x.id == 1) =
      some ⟨1, 11, 0, 0, false, none, 0⟩) ∧
    (scanCart richDB ⟨1, 11, 0, 0, false, none, 0⟩ [(1, 1)] =
      Except.ok [(⟨1, 10, true, false, 0⟩, 1)]) ∧
    (([((⟨1, 10, true, false, 0⟩ : Dish), (1 : Nat))].length == 0) = false) ∧
    ((computePricing richDB ⟨1, 11, 0, 0, false, none, 0⟩ 10).1.wallets.find?
      (fun x => x.user_id == 11) = some ⟨21, 11, 100, 100, 0, 0⟩) ∧
    (¬ (⟨21, 11, 100, 100, 0, 0⟩ : Wallet).balance <
      (computePricing richDB ⟨1, 11, 0, 0, false, none, 0⟩ 10).2.2.2.2) ∧
    (∃ db', create_order 5 0 richDB 1 [(1, 1)] =
        .ok (db', true, "Order created successfully",
          some (computePricing richDB ⟨1, 11, 0, 0, false, none, 0⟩ 10).1.next_id) ∧
      db'.customers.map (fun x => (x.id, x.total_orders, x.total_spent)) =
        richDB.customers.map (fun x => if x.id == 1 then
            (x.id, x.total_orders + 2, x.total_spent +
              2 * (computePricing richDB ⟨1, 11, 0, 0, false, none, 0⟩ 10).2.2.2.2)
          else (x.id, x.total_orders, x.total_spent))) :=
  ⟨by with_unfolding_all rfl, rfl, rfl, rfl, rfl, rfl,
    by with_unfolding_all decide,
    aislice_c4_double_update 5 0 richDB 1 [(1, 1)] ⟨1, 11, 0, 0, false, none, 0⟩
      [(⟨1, 10, true, false, 0⟩, 1)] ⟨21, 11, 100, 100, 0, 0⟩ 10
      (by with_unfolding_all rfl) rfl rfl rfl rfl rfl
      (by with_unfolding_all decide)⟩

/-- Bid-row lookup across a key-preserving row update. -/
theorem find?_bidUpd (l : List DeliveryBid) (p : DeliveryBid → Bool) (qid : Nat)
    (f : DeliveryBid → DeliveryBid) (hf : ∀ x, (f x).id = x.id) :
    (listUpdate p f l).find? (fun x => x.id == qid) =
      (l.find? (fun x => x.id == qid)).map (fun a => if p a then f a else a) :=
  find?_listUpdate _ _ _ _ (fun a => by rw [hf a])

/-- **C5.** With pending bids present and no override, `assign_agent` accepts
exactly the bid that is minimal in the lexicographic order
`(bid_amount, created_at)`, rejects every other pending bid of the listing,
sets the delivery to `assigned` (recording assignment type and winning
amount), flips the order to `assigned_for_delivery`, and marks the winning
courier unavailable. -/
theorem aislice_c5_lowest_bid (db : DB) (order_id : Nat) (o : Order)
    (delivery : Delivery)
    (ho : db.orders.find? (fun x => x.id == order_id) = some o)
    (hd : db.deliveries.find? (fun d => d.order_id == order_id) = some delivery)
    (hne : pendingBids db delivery ≠ [])
    (hnd : (db.delivery_bids.map DeliveryBid.id).Nodup)
    (hdp : ∀ b ∈ pendingBids db delivery,
      (db.delivery_persons.find?
        (fun p => p.id == b.delivery_person_id)).isSome = true) :
    ∃ lb, lb ∈ pendingBids db delivery ∧
      (∀ b ∈ pendingBids db delivery, bidLe lb b = true) ∧
      assign_agent db order_id none none =
        (((((db.updBids (fun b => b.id == lb.id)
            (fun b => { b with status := .accepted })).updBids
            (fun b => (pendingBids db delivery).any (fun b2 => b2.id == b.id) &&
              b.id != lb.id)
            (fun b => { b with status := .rejected })).updDeliveries
            (fun d => d.id == delivery.id)
            (fun d => { d with delivery_person_id := some lb.delivery_person_id, assignment_type := some AssignmentType.auto_assign, winning_bid_amount := some lb.bid_amount, status := DeliveryStatus.assigned })).updOrders
            (fun x => x.id == order_id)
            (fun x => { x with status := .assigned_for_delivery })).updDPs
            (fun p => p.id == lb.delivery_person_id)
            (fun p => { p with is_available := false }),
          true, "Delivery assigned successfully", some lb.delivery_person_id) ∧
      (∀ b ∈ pendingBids db delivery, b.id ≠ lb.id →
        (assign_agent db order_id none none).1.delivery_bids.find?
          (fun x => x.id == b.id) = some { b with status := .rejected }) := by
  have hlen0 : ((pendingBids db delivery).length == 0) = false :=
    beq_eq_false_iff_ne.mpr (fun h => hne (List.length_eq_zero.mp h))
  unfold assign_agent
  simp only [ho, hd, hlen0, Bool.false_eq_true, if_false]
  cases hms : (pendingBids db delivery).mergeSort bidLe with
  | nil =>
    exfalso
    apply hne
    have hl : ((pendingBids db delivery).mergeSort bidLe).length =
        (pendingBids db delivery).length :=
      List.length_mergeSort (pendingBids db delivery)
    rw [hms] at hl
    exact List.length_eq_zero.mp hl.symm
  | cons lb rest =>
    have hmem : lb ∈ pendingBids db delivery :=
      List.mem_mergeSort.mp (hms ▸ List.mem_cons_self lb rest)
    have hpw := List.sorted_mergeSort bidLe_trans bidLe_total
      (pendingBids db delivery)
    rw [hms] at hpw
    have hmin : ∀ b ∈ pendingBids db delivery, bidLe lb b = true := by
      intro b hb
      have hb2 : b ∈ lb :: rest := hms ▸ List.mem_mergeSort.mpr hb
      rcases List.mem_cons.mp hb2 with rfl | hb3
      · exact bidLe_refl b
      · exact (List.pairwise_cons.mp hpw).1 b hb3
    obtain ⟨dp, hdpeq⟩ := Option.isSome_iff_exists.mp (hdp lb hmem)
    refine ⟨lb, hmem, hmin, ?_, ?_⟩
    · simp only [updOrders_delivery_persons, updDeliveries_delivery_persons,
        updBids_delivery_persons, hdpeq]
    · intro b hb hbne
      simp only [updOrders_delivery_persons, updDeliveries_delivery_persons,
        updBids_delivery_persons, hdpeq]
      simp only [updDPs_delivery_bids, updOrders_delivery_bids,
        updDeliveries_delivery_bids, updBids_delivery_bids]
      rw [find?_bidUpd _ (fun x => (pendingBids db delivery).any
          (fun b2 => b2.id == x.id) && x.id != lb.id) b.id
        (fun x => { x with status := BidStatus.rejected }) (fun x => rfl)]
      rw [find?_bidUpd _ (fun x => x.id == lb.id) b.id
        (fun x => { x with status := BidStatus.accepted }) (fun x => rfl)]
      rw [find?_eq_of_mem_of_nodup DeliveryBid.id hnd (List.mem_of_mem_filter hb)]
      simp only [Option.map_some']
      have hacc : (b.id == lb.id) = false := beq_eq_false_iff_ne.mpr hbne
      have hany : ((pendingBids db delivery).any (fun b2 => b2.id == b.id)) = true :=
        List.any_eq_true.mpr ⟨b, hb, by simp⟩
      have hbne2 : (b.id != lb.id) = true := bne_iff_ne.mpr hbne
      simp [hacc, hany, hbne2]

/-- **C5 witness.** Among bids `5.00@1`, `4.50@3`, `4.50@2` the winner is the
lexicographically least bid — `4.50` submitted at time 2 (bid 43, courier 33):
it is the unique pending bid below all others. -/
theorem aislice_c5_witness :
    (bidDB.orders.find? (fun x => x.id == 1) =
      some ⟨1, 1, .ready_for_delivery, .paid, 10, 0, 5, 15, false, false, none⟩) ∧
    (bidDB.deliveries.find? (fun d => d.order_id == 1) =
      some ⟨1, 1, none, .pending_bidding, none, none, none, 100, none, none⟩) ∧
    (pendingBids bidDB ⟨1, 1, none, .pending_bidding, none, none, none, 100,
      none, none⟩ ≠ []) ∧
    ((bidDB.delivery_bids.map DeliveryBid.id).Nodup) ∧
    (∀ b ∈ pendingBids bidDB ⟨1, 1, none, .pending_bidding, none, none, none,
        100, none, none⟩,
      (bidDB.delivery_persons.find?
        (fun p => p.id == b.delivery_person_id)).isSome = true) ∧
    (∀ b ∈ pendingBids bidDB ⟨1, 1, none, .pending_bidding, none, none, none,
        100, none, none⟩,
      bidLe ⟨43, 1, 33, 9/2, 20, .pending, 2⟩ b = true) ∧
    (∀ b ∈ pendingBids bidDB ⟨1, 1, none, .pending_bidding, none, none, none,
        100, none, none⟩,
      (∀ b2 ∈ pendingBids bidDB ⟨1, 1, none, .pending_bidding, none, none,
        none, 100, none, none⟩, bidLe b b2 = true) →
      b = ⟨43, 1, 33, 9/2, 20, .pending, 2⟩) ∧
    (∃ lb, lb ∈ pendingBids bidDB ⟨1, 1, none, .pending_bidding, none, none,
        none, 100, none, none⟩ ∧
      (∀ b ∈ pendingBids bidDB ⟨1, 1, none, .pending_bidding, none, none, none,
        100, none, none⟩, bidLe lb b = true) ∧
      assign_agent bidDB 1 none none =
        (((((bidDB.updBids (fun b => b.id == lb.id)
            (fun b => { b with status := .accepted })).updBids
            (fun b => (pendingBids bidDB ⟨1, 1, none, .pending_bidding, none,
              none, none, 100, none, none⟩).any (fun b2 => b2.id == b.id) &&
              b.id != lb.id)
            (fun b => { b with status := .rejected })).updDeliveries
            (fun d => d.id == 1)
            (fun d => { d with delivery_person_id := some lb.delivery_person_id, assignment_type := some AssignmentType.auto_assign, winning_bid_amount := some lb.bid_amount, status := DeliveryStatus.assigned })).updOrders
            (fun x => x.id == 1)
            (fun x => { x with status := .assigned_for_delivery })).updDPs
            (fun p => p.id == lb.delivery_person_id)
            (fun p => { p with is_available := false }),
          true, "Delivery assigned successfully", some lb.delivery_person_id) ∧
      (∀ b ∈ pendingBids bidDB ⟨1, 1, none, .pending_bidding, none, none, none,
          100, none, none⟩, b.id ≠ lb.id →
        (assign_agent bidDB 1 none none).1.delivery_bids.find?
          (fun x => x.id == b.id) = some { b with status := .rejected })) := by
  refine ⟨rfl, rfl, by decide, by decide, by decide,
    by with_unfolding_all decide, by with_unfolding_all decide, ?_⟩
  exact aislice_c5_lowest_bid bidDB 1
    ⟨1, 1, .ready_for_delivery, .paid, 10, 0, 5, 15, false, false, none⟩
    ⟨1, 1, none, .pending_bidding, none, none, none, 100, none, none⟩
    rfl rfl (by decide) (by decide) (by decide)

/-! ## Ledger bookkeeping lemmas -/

/-- Appending one ledger row adds its delta to the subject wallet's sum and
nothing to any other wallet's. -/
theorem walletDeltasSum_append (db db' : DB) (txn : Transaction) (wid : Nat)
    (h : db'.transactions = db.transactions ++ [txn]) :
    walletDeltasSum db' wid = walletDeltasSum db wid +
      (if txn.wallet_id == wid then txn.balance_after - txn.balance_before
       else 0) := by
  unfold walletDeltasSum
  rw [h, List.filter_append, List.map_append, List.sum_append]
  by_cases hc : (txn.wallet_id == wid) = true
  · simp [List.filter_cons, hc]
  · simp [List.filter_cons, hc]

/-- Unchanged ledger rows, unchanged sums. -/
theorem walletDeltasSum_congr (db db' : DB) (wid : Nat)
    (h : db'.transactions = db.transactions) :
    walletDeltasSum db' wid = walletDeltasSum db wid := by
  unfold walletDeltasSum
  rw [h]

/-- The common deposit/charge/refund shape — one key-preserving balance
update of `amt` on wallet `wid`, bracketed by exactly one appended ledger row
of delta `amt` against `wid` — preserves the auditability invariant. -/
theorem ledgerInvariant_bracket (db db' : DB) (wid : Nat) (amt : ℚ)
    (txn : Transaction) (f : Wallet → Wallet)
    (hW : db'.wallets = listUpdate (fun x => x.id == wid) f db.wallets)
    (hT : db'.transactions = db.transactions ++ [txn])
    (hfid : ∀ x, (f x).id = x.id)
    (hfbal : ∀ x, (f x).balance = x.balance + amt)
    (htw : txn.wallet_id = wid)
    (hdelta : txn.balance_after - txn.balance_before = amt)
    (hinv : ledgerInvariant db) : ledgerInvariant db' := by
  intro w' hw'
  rw [hW] at hw'
  obtain ⟨a, ha, rfl⟩ := List.mem_map.mp hw'
  rw [walletDeltasSum_append db db' txn _ hT]
  by_cases hp : (a.id == wid) = true
  · rw [if_pos hp, hfid a]
    have haw : a.id = wid := by simpa using hp
    have hc : (txn.wallet_id == a.id) = true := by
      rw [htw, haw]
      exact beq_self_eq_true wid
    rw [if_pos hc, hdelta, hfbal a, hinv a ha]
  · rw [if_neg hp]
    have haw : ¬ a.id = wid := by simpa using hp
    have hc : ¬ ((txn.wallet_id == a.id) = true) := by
      rw [htw]
      simp only [beq_iff_eq]
      exact fun h2 => haw h2.symm
    rw [if_neg hc, add_zero]
    exact hinv a ha

/-- One key-preserving wallet update plus one appended ledger row against an
existing wallet key preserves key hygiene. -/
theorem walletKeysOk_update_append (db db' : DB) (p : Wallet → Bool)
    (f : Wallet → Wallet) (txn : Transaction)
    (hW : db'.wallets = listUpdate p f db.wallets)
    (hfid : ∀ x, (f x).id = x.id)
    (hT : db'.transactions = db.transactions ++ [txn])
    (hN : db'.next_id = db.next_id)
    (htw : txn.wallet_id < db.next_id)
    (hk : WalletKeysOk db) : WalletKeysOk db' := by
  obtain ⟨hnd, hwlt, htlt⟩ := hk
  refine ⟨?_, ?_, ?_⟩
  · rw [hW, map_listUpdate p f Wallet.id db.wallets hfid]
    exact hnd
  · rw [hW, hN]
    refine forall_mem_listUpdate ?_
    intro a ha
    by_cases hp : p a = true
    · rw [if_pos hp, hfid a]
      exact hwlt a ha
    · rw [if_neg hp]
      exact hwlt a ha
  · rw [hT, hN]
    intro t ht
    rcases List.mem_append.mp ht with h | h
    · exact htlt t h
    · rw [List.mem_singleton.mp h]
      exact htw

/-- A freshly created zero-balance wallet under an unused key joins the
auditability invariant. -/
theorem ledgerInvariant_append_fresh (db db' : DB) (w0 : Wallet)
    (hW : db'.wallets = db.wallets ++ [w0])
    (hT : db'.transactions = db.transactions)
    (hbal : w0.balance = 0)
    (hfresh : ∀ t ∈ db.transactions, t.wallet_id ≠ w0.id)
    (hinv : ledgerInvariant db) : ledgerInvariant db' := by
  intro w' hw'
  rw [hW] at hw'
  rw [walletDeltasSum_congr db db' w'.id hT]
  rcases List.mem_append.mp hw' with h | h
  · exact hinv w' h
  · have hw0 : w' = w0 := List.mem_singleton.mp h
    subst hw0
    rw [hbal]
    unfold walletDeltasSum
    have hfe : db.transactions.filter (fun t => t.wallet_id == w'.id) = [] := by
      rw [List.filter_eq_nil_iff]
      intro t ht
      simpa using hfresh t ht
    rw [hfe]
    rfl

/-- Creating a wallet under the fresh id and bumping the id counter keeps key
hygiene. -/
theorem walletKeysOk_append_fresh (db db' : DB) (w0 : Wallet)
    (hW : db'.wallets = db.wallets ++ [w0])
    (hT : db'.transactions = db.transactions)
    (hN : db'.next_id = db.next_id + 1)
    (hid : w0.id = db.next_id)
    (hk : WalletKeysOk db) : WalletKeysOk db' := by
  obtain ⟨hnd, hwlt, htlt⟩ := hk
  refine ⟨?_, ?_, ?_⟩
  · rw [hW, List.map_append]
    refine hnd.append (by simp) ?_
    intro a ha hb
    obtain ⟨w, hw, rfl⟩ := List.mem_map.mp ha
    have h2 : w.id = w0.id := by simpa using hb
    exact Nat.ne_of_lt (hwlt w hw) (h2.trans hid)
  · rw [hW, hN]
    intro w hw
    rcases List.mem_append.mp hw with h | h
    · exact Nat.lt_succ_of_lt (hwlt w h)
    · rw [List.mem_singleton.mp h, hid]
      exact Nat.lt_succ_self _
  · rw [hT, hN]
    intro t ht
    exact Nat.lt_succ_of_lt (htlt t ht)

/-- `deposit_money` preserves the auditability invariant and key hygiene on
every branch (rejected amount, existing wallet, wallet creation). -/
theorem deposit_money_audit (db : DB) (uid : Nat) (amt : ℚ)
    (hk : WalletKeysOk db) (hi : ledgerInvariant db) :
    ledgerInvariant (deposit_money db uid amt).1 ∧
      WalletKeysOk (deposit_money db uid amt).1 := by
  by_cases hneg : amt ≤ 0
  · have hred : (deposit_money db uid amt).1 = db := by
      unfold deposit_money
      rw [if_pos hneg]
    rw [hred]
    exact ⟨hi, hk⟩
  · cases hw : db.wallets.find? (fun w => w.user_id == uid) with
    | some w =>
      have hred : (deposit_money db uid amt).1 =
          (db.updWallets (fun x => x.id == w.id)
            (fun x => { x with balance := x.balance + amt, total_deposited := x.total_deposited + amt })).addTransaction
            ⟨w.id, none, .deposit, .success, amt, w.balance, w.balance + amt⟩ := by
        unfold deposit_money
        rw [if_neg hneg, hw]
      rw [hred]
      refine ⟨?_, ?_⟩
      · exact ledgerInvariant_bracket db _ w.id amt
          ⟨w.id, none, .deposit, .success, amt, w.balance, w.balance + amt⟩
          (fun x => { x with balance := x.balance + amt, total_deposited := x.total_deposited + amt })
          (by rw [addTransaction_wallets, updWallets_wallets])
          (by rw [addTransaction_transactions, updWallets_transactions])
          (fun x => rfl) (fun x => rfl) rfl (by ring) hi
      · exact walletKeysOk_update_append db _ (fun x => x.id == w.id)
          (fun x => { x with balance := x.balance + amt, total_deposited := x.total_deposited + amt })
          ⟨w.id, none, .deposit, .success, amt, w.balance, w.balance + amt⟩
          (by rw [addTransaction_wallets, updWallets_wallets])
          (fun x => rfl)
          (by rw [addTransaction_transactions, updWallets_transactions])
          (by rw [addTransaction_next_id, updWallets_next_id])
          (hk.2.1 w (List.mem_of_find?_eq_some hw)) hk
    | none =>
      have hred : (deposit_money db uid amt).1 =
          (({ db with wallets := db.wallets ++ [⟨db.next_id, uid, 0, 0, 0, 0⟩], next_id := db.next_id + 1 } : DB).updWallets
            (fun x => x.id == db.next_id)
            (fun x => { x with balance := x.balance + amt, total_deposited := x.total_deposited + amt })).addTransaction
            ⟨db.next_id, none, .deposit, .success, amt, 0, 0 + amt⟩ := by
        unfold deposit_money
        rw [if_neg hneg, hw]
      rw [hred]
      have hk1 : WalletKeysOk { db with wallets := db.wallets ++ [⟨db.next_id, uid, 0, 0, 0, 0⟩], next_id := db.next_id + 1 } :=
        walletKeysOk_append_fresh db _ _ rfl rfl rfl rfl hk
      have hi1 : ledgerInvariant { db with wallets := db.wallets ++ [⟨db.next_id, uid, 0, 0, 0, 0⟩], next_id := db.next_id + 1 } :=
        ledgerInvariant_append_fresh db _ _ rfl rfl rfl
          (fun t ht => Nat.ne_of_lt (hk.2.2 t ht)) hi
      refine ⟨?_, ?_⟩
      · exact ledgerInvariant_bracket _ _ db.next_id amt
          ⟨db.next_id, none, .deposit, .success, amt, 0, 0 + amt⟩
          (fun x => { x with balance := x.balance + amt, total_deposited := x.total_deposited + amt })
          (by rw [addTransaction_wallets, updWallets_wallets])
          (by rw [addTransaction_transactions, updWallets_transactions])
          (fun x => rfl) (fun x => rfl) rfl (by ring) hi1
      · exact walletKeysOk_update_append _ _ (fun x => x.id == db.next_id)
          (fun x => { x with balance := x.balance + amt, total_deposited := x.total_deposited + amt })
          ⟨db.next_id, none, .deposit, .success, amt, 0, 0 + amt⟩
          (by rw [addTransaction_wallets, updWallets_wallets])
          (fun x => rfl)
          (by rw [addTransaction_transactions, updWallets_transactions])
          (by rw [addTransaction_next_id, updWallets_next_id])
          (Nat.lt_succ_self _) hk1

/-- `check_staff_performance` either returns its input store unchanged (no
user row) or raises `NameError` (line 37 evaluates the unimported
`UserType`); it never mutates anything. -/
theorem check_staff_cases (fuel now : Nat) (db : DB) (uid : Nat) :
    check_staff_performance fuel now db uid = .ok db ∨
      check_staff_performance fuel now db uid = .nameError := by
  unfold check_staff_performance
  cases hu : db.users.find? (fun u => u.id == uid) with
  | none => exact Or.inl rfl
  | some u => exact Or.inr rfl

/-- `record_event` either commits the reputation bookkeeping (no user row) or
raises `NameError` (line 188 evaluates the unimported `UserType`); no input
reaches the recursive call at line 197. -/
theorem record_event_cases (fuel now : Nat) (db : DB) (uid : Nat)
    (et : String) (cb : Option Nat) :
    (∃ db', record_event fuel now db uid et cb = .ok (db', true)) ∨
      record_event fuel now db uid et cb = .nameError := by
  unfold record_event
  cases hu : db.users.find? (fun u => u.id == uid) with
  | some u => exact Or.inr rfl
  | none =>
    cases hrep : db.reputations.find? (fun r => r.user_id == uid) with
    | some r => exact Or.inl ⟨_, rfl⟩
    | none => exact Or.inl ⟨_, rfl⟩

/-- **C1 (code bug).** On `poorDB` the wallet balance 1 is below the computed
order total 15, so `create_order` takes the insufficient-funds branch — but
instead of returning failure and appending one `insufficient_funds` event
(delta -3) it raises `NameError` inside `record_event` (line 188,
`reputation_service.py` never imports `UserType`) before any commit: the
caller gets no rejection tuple and no event of any kind persists.  Even the
event the branch *asked* for is wrong: the lookup string
`"INSUFFICIENT_FUNDS_ORDER_REJECTED"` is not an enum member name, and the
`KeyError` fallback would have recorded `order_completed` with delta +2. -/
theorem aislice_c1_crash :
    poorDB.wallets.find? (fun x => x.user_id == 11) = some ⟨21, 11, 1, 0, 0, 0⟩ ∧
    (computePricing poorDB ⟨1, 11, 0, 0, false, none, 0⟩ 10).2.2.2.2 = 15 ∧
    (⟨21, 11, 1, 0, 0, 0⟩ : Wallet).balance < 15 ∧
    create_order 9 0 poorDB 1 [(1, 1)] = .nameError ∧
    eventTypeOfName (strUpper "INSUFFICIENT_FUNDS_ORDER_REJECTED") = none ∧
    calculate_score_change ((eventTypeOfName (strUpper
      "INSUFFICIENT_FUNDS_ORDER_REJECTED")).getD .order_completed) = 2 :=
  ⟨rfl, by with_unfolding_all rfl, show (1 : ℚ) < 15 by norm_num,
    by with_unfolding_all rfl, rfl, rfl⟩

/-- **C2 (code bug).** On `vipDB` the rejected order crashes instead of
committing the reputation event: `create_order` raises `NameError` inside
`record_event` before any commit, so *nothing* persists — not the event the
claim requires, and not the free-delivery credit the pricing block had
already consumed in-session (`free_deliveries_used` 0 → 1 at
`order_service.py` line 95, rolled back with the rest of the session). -/
theorem aislice_c2_crash :
    vipDB.customers.find? (fun x => x.id == 1) = some ⟨1, 12, 0, 0, true, some 0, 0⟩ ∧
    vipDB.vip_customers.map VIPCustomer.free_deliveries_used = [0] ∧
    create_order 9 0 vipDB 1 [(1, 1)] = .nameError ∧
    (computePricing vipDB ⟨1, 12, 0, 0, true, some 0, 0⟩ 10).1.vip_customers.map
      VIPCustomer.free_deliveries_used = [1] :=
  ⟨rfl, rfl, by with_unfolding_all rfl, by with_unfolding_all rfl⟩

/-- **C3 (confirmed).** Every committing balance mutation of the four named
operations is paired with exactly one bracketing Transaction row whose delta
equals the signed amount, and each operation preserves the audit invariant
"sum of the wallet's deltas = balance - 0" (given distinct wallet keys):
deposits append one `deposit` row of delta `+amt` and preserve the invariant
on every branch; a successful charge appends exactly one `order_payment` row
of delta `-amt`; a refund appends exactly one `refund` row of delta `+amt`;
and the reputation-driven staff bonus never mutates anything — for a missing
user row `check_staff_performance` returns the store unchanged, and for an
existing one it raises `NameError` (line 37) before reaching the unpaired
`wallet.balance += 50` at line 102, which therefore never commits. -/
theorem aislice_c3_ledger_audit
    (dbD : DB) (uidD : Nat) (amtD : ℚ) (wD : Wallet)
    (dbP : DB) (nowP oidP cidP : Nat) (amtP : ℚ) (cP : Customer) (wP : Wallet)
    (dbR : DB) (oidR : Nat) (tR : Transaction) (wR : Wallet)
    (fuelS nowS : Nat) (dbS : DB) (uidS : Nat)
    (hkD : WalletKeysOk dbD) (hiD : ledgerInvariant dbD)
    (hposD : ¬ amtD ≤ 0)
    (hwD : dbD.wallets.find? (fun w => w.user_id == uidD) = some wD)
    (hkP : WalletKeysOk dbP) (hiP : ledgerInvariant dbP)
    (hcP : dbP.customers.find? (fun x => x.id == cidP) = some cP)
    (hwP : dbP.wallets.find? (fun x => x.user_id == cP.user_id) = some wP)
    (hbP : ¬ wP.balance < amtP)
    (hkR : WalletKeysOk dbR) (hiR : ledgerInvariant dbR)
    (htR : dbR.transactions.find? (fun x => x.order_id == some oidR &&
      x.transaction_type == TransactionType.order_payment) = some tR)
    (hwR : dbR.wallets.find? (fun x => x.id == tR.wallet_id) = some wR) :
    (∃ db', deposit_money dbD uidD amtD = (db', true, "Successfully deposited") ∧
      db'.transactions = dbD.transactions ++
        [⟨wD.id, none, .deposit, .success, amtD, wD.balance, wD.balance + amtD⟩]) ∧
    (ledgerInvariant (deposit_money dbD uidD amtD).1 ∧
      WalletKeysOk (deposit_money dbD uidD amtD).1) ∧
    (∃ db', process_payment dbP nowP oidP cidP amtP =
        (db', true, "Payment completed") ∧
      db'.transactions = dbP.transactions ++
        [⟨wP.id, some oidP, .order_payment, .success, amtP, wP.balance,
          wP.balance - amtP⟩] ∧
      ledgerInvariant db' ∧ WalletKeysOk db') ∧
    (∃ db', refund_order dbR oidR = .ok (db', true, "Refunded to wallet") ∧
      db'.transactions = dbR.transactions ++
        [⟨wR.id, some oidR, .refund, .success, tR.amount, wR.balance,
          wR.balance + tR.amount⟩] ∧
      ledgerInvariant db' ∧ WalletKeysOk db') ∧
    (check_staff_performance fuelS nowS dbS uidS = .ok dbS ∨
      check_staff_performance fuelS nowS dbS uidS = .nameError) := by
  refine ⟨?_, deposit_money_audit dbD uidD amtD hkD hiD, ?_, ?_,
    check_staff_cases fuelS nowS dbS uidS⟩
  · have hred : deposit_money dbD uidD amtD =
        ((dbD.updWallets (fun x => x.id == wD.id)
          (fun x => { x with balance := x.balance + amtD, total_deposited := x.total_deposited + amtD })).addTransaction
          ⟨wD.id, none, .deposit, .success, amtD, wD.balance, wD.balance + amtD⟩,
         true, "Successfully deposited") := by
      unfold deposit_money
      rw [if_neg hposD, hwD]
    refine ⟨_, hred, ?_⟩
    rw [addTransaction_transactions, updWallets_transactions]
  · obtain ⟨db', hpp, _, hw3, ht3, _, _, _, _, _, _, _, hn3⟩ :=
      process_payment_success dbP nowP oidP cidP amtP cP wP hcP hwP hbP
    refine ⟨db', hpp, ht3, ?_, ?_⟩
    · exact ledgerInvariant_bracket dbP db' wP.id (-amtP) _ _ hw3 ht3
        (fun x => rfl) (fun x => by ring) rfl (by ring) hiP
    · exact walletKeysOk_update_append dbP db' _ _ _ hw3 (fun x => rfl) ht3 hn3
        (hkP.2.1 wP (List.mem_of_find?_eq_some hwP)) hkP
  · obtain ⟨db', hro, ht3, hw3, hn3⟩ := refund_step dbR oidR tR wR htR hwR
    refine ⟨db', hro, ht3, ?_, ?_⟩
    · exact ledgerInvariant_bracket dbR db' wR.id tR.amount _ _ hw3 ht3
        (fun x => rfl) (fun x => rfl) rfl (by ring) hiR
    · exact walletKeysOk_update_append dbR db' _ _ _ hw3 (fun x => rfl) ht3 hn3
        (hkR.2.1 wR (List.mem_of_find?_eq_some hwR)) hkR

/-- **C3 witness.** The audit theorem at `ledgerDB`: a deposit of 10, a
charge of 5 for order 8, the refund of order 7 and a staff-performance check
for user 11. -/
theorem aislice_c3_witness :
    (WalletKeysOk ledgerDB ∧ ledgerInvariant ledgerDB ∧
      ¬ (10 : ℚ) ≤ 0 ∧
      ledgerDB.wallets.find? (fun w => w.user_id == 11) =
        some ⟨21, 11, 20, 32, 12, 0⟩ ∧
      ledgerDB.customers.find? (fun x => x.id == 1) =
        some ⟨1, 11, 0, 0, false, none, 0⟩ ∧
      ¬ (⟨21, 11, 20, 32, 12, 0⟩ : Wallet).balance < 5 ∧
      ledgerDB.transactions.find? (fun x => x.order_id == some 7 &&
        x.transaction_type == TransactionType.order_payment) =
          some ⟨21, some 7, .order_payment, .success, 12, 32, 20⟩) ∧
    ((∃ db', deposit_money ledgerDB 11 10 =
        (db', true, "Successfully deposited") ∧
      db'.transactions = ledgerDB.transactions ++
        [⟨21, none, .deposit, .success, 10, 20, 20 + 10⟩]) ∧
    (ledgerInvariant (deposit_money ledgerDB 11 10).1 ∧
      WalletKeysOk (deposit_money ledgerDB 11 10).1) ∧
    (∃ db', process_payment ledgerDB 0 8 1 5 =
        (db', true, "Payment completed") ∧
      db'.transactions = ledgerDB.transactions ++
        [⟨21, some 8, .order_payment, .success, 5, 20, 20 - 5⟩] ∧
      ledgerInvariant db' ∧ WalletKeysOk db') ∧
    (∃ db', refund_order ledgerDB 7 = .ok (db', true, "Refunded to wallet") ∧
      db'.transactions = ledgerDB.transactions ++
        [⟨21, some 7, .refund, .success, 12, 20, 20 + 12⟩] ∧
      ledgerInvariant db' ∧ WalletKeysOk db') ∧
    (check_staff_performance 3 0 ledgerDB 11 = .ok ledgerDB ∨
      check_staff_performance 3 0 ledgerDB 11 = .nameError)) := by
  have hk : WalletKeysOk ledgerDB := by
    unfold WalletKeysOk
    decide
  have hi : ledgerInvariant ledgerDB := by
    unfold ledgerInvariant walletDeltasSum
    with_unfolding_all decide
  have hpos : ¬ (10 : ℚ) ≤ 0 := by norm_num
  have hbal : ¬ (⟨21, 11, 20, 32, 12, 0⟩ : Wallet).balance < 5 :=
    show ¬ (20 : ℚ) < 5 by norm_num
  exact ⟨⟨hk, hi, hpos, rfl, rfl, hbal, rfl⟩,
    aislice_c3_ledger_audit ledgerDB 11 10 ⟨21, 11, 20, 32, 12, 0⟩
      ledgerDB 0 8 1 5 ⟨1, 11, 0, 0, false, none, 0⟩ ⟨21, 11, 20, 32, 12, 0⟩
      ledgerDB 7 ⟨21, some 7, .order_payment, .success, 12, 32, 20⟩
      ⟨21, 11, 20, 32, 12, 0⟩ 3 0 ledgerDB 11
      hk hi hpos rfl hk hi rfl rfl hbal hk hi rfl rfl⟩

/-- **C6 (code bug).** The warning thresholds are never reached for any
subject whose user row exists: `apply_warning` delegates to `record_event`,
which raises `NameError` at line 188 before any threshold check runs.  On
`nonVipWarnDB` the non-VIP user 11 already carries 2 warnings, yet the third
warning deactivates nobody — the call raises; on `vipWarnDB` the VIP user 12
carries 1 warning, yet the second warning demotes nobody — the call raises. -/
theorem aislice_c6_crash :
    nonVipWarnDB.users.find? (fun u => u.id == 11) =
      some ⟨11, .customer, .active⟩ ∧
    check_warnings nonVipWarnDB 11 = 2 ∧
    apply_warning 5 0 nonVipWarnDB 11 "third warning" = .nameError ∧
    vipWarnDB.users.find? (fun u => u.id == 12) = some ⟨12, .vip, .active⟩ ∧
    (∃ c, vipWarnDB.customers.find? (fun x => x.user_id == 12) = some c ∧
      c.is_vip = true) ∧
    check_warnings vipWarnDB 12 = 1 ∧
    apply_warning 5 0 vipWarnDB 12 "second warning" = .nameError :=
  ⟨rfl, rfl, rfl, rfl, ⟨⟨1, 12, 0, 0, true, some 0, 0⟩, rfl, rfl⟩, rfl, rfl⟩

/-- **C10 (amended).** `record_event` does terminate on every input — but not
because the mutual recursion is well-founded: no depth bound is ever
exhausted because the recursion never starts.  For a subject with a user row
(in particular every staff user, whatever the `average_rating`) both
`record_event` and `check_staff_performance` raise `NameError` before their
recursive calls; otherwise `record_event` commits its bookkeeping and
returns. -/
theorem aislice_c10_total (fuel now : Nat) (db : DB) (uid : Nat) (et : String)
    (cb : Option Nat) :
    record_event fuel now db uid et cb ≠ .fuelOut ∧
    check_staff_performance fuel now db uid ≠ .fuelOut ∧
    ((∃ db', record_event fuel now db uid et cb = .ok (db', true)) ∨
      record_event fuel now db uid et cb = .nameError) := by
  refine ⟨?_, ?_, record_event_cases fuel now db uid et cb⟩
  · rcases record_event_cases fuel now db uid et cb with ⟨db', h⟩ | h <;>
      rw [h] <;> exact fun hh => PyResult.noConfusion hh
  · rcases check_staff_cases fuel now db uid with h | h <;>
      rw [h] <;> exact fun hh => PyResult.noConfusion hh

/-- **C10 counterexample.** The claim's showcase input — a chef whose
`average_rating` 1.0 lies strictly between 0 and 2.0, for whom the
DEMOTION-event recursion would run — never recurses at all: both entry points
raise `NameError` at once (`UserType` is unimported at lines 188 and 37), so
no well-foundedness is exercised and nothing commits. -/
theorem aislice_c10_counterexample :
    chefDemoteDB.users.find? (fun u => u.id == 13) =
      some ⟨13, .chef, .active⟩ ∧
    chefDemoteDB.chefs = [⟨13, 1, 0, 0, 0, 100⟩] ∧
    record_event 5 0 chefDemoteDB 13 "COMPLAINT" none = .nameError ∧
    check_staff_performance 5 0 chefDemoteDB 13 = .nameError :=
  ⟨rfl, rfl, rfl, rfl⟩

end AISlice

